import Mathlib

/-!
# Koshya voucher dashboard: the client-side list state of `static/js/app.js`

A shallow embedding of the `VoucherApp` class.  JavaScript numbers that hold
page indices, counts and lengths are mathematical integers (`Int`).  A
monetary amount of a voucher is the rational value of the number literal in
the response body; arithmetic on amounts goes through `JsNumber`, the IEEE 754
double the literal parses to.  The page document and the transport are not part of
the script: the document is a value of type `Document` carried in the `World`,
and every awaited call takes its outcome (`Except String _`, the `String`
being `error.message`) as an argument.  Calls made by the script are appended
to `World.trace` in the order they are issued.
-/

namespace Koshya

/-! ## Numbers and sequences -/

/-- The value of `Math.ceil(a / b)` for integer-valued `a` and positive `b`. -/
def mathCeilDiv (a b : Int) : Int := -((-a) / b)

/-- Relative index resolution of `Array.prototype.slice`: a negative index
counts from the end, and the result is clamped to `[0, len]`. -/
def sliceIndex (len : Nat) (k : Int) : Nat :=
  if k < 0 then ((len : Int) + k).toNat else min k.toNat len

/-- The value of `xs.slice(start, stop)`. -/
def jsSlice {α : Type} (xs : List α) (start stop : Int) : List α :=
  let lo := sliceIndex xs.length start
  let hi := sliceIndex xs.length stop
  (xs.drop lo).take (hi - lo)

/-! ## JavaScript numbers -/

/-- A JavaScript number: a finite double given by its exact value, an
infinity, or `NaN`.  The sign of zero is not kept: it shows in no output of
the script. -/
inductive JsNumber where
  | finite (value : ℚ)
  | posInf
  | negInf
  | nan
  deriving DecidableEq, Repr

/-- Rounding to the nearest integer, a tie going to the even one. -/
def roundHalfEven (r : ℚ) : Int :=
  if r - ⌊r⌋ < 1 / 2 then ⌊r⌋
  else if 1 / 2 < r - ⌊r⌋ then ⌊r⌋ + 1
  else if ⌊r⌋ % 2 = 0 then ⌊r⌋ else ⌊r⌋ + 1

/-- The least magnitude that rounds to an infinity: halfway between the
largest double `2^1024 - 2^971` and `2^1024`. -/
def overflowThreshold : ℚ := 2 ^ 1024 - 2 ^ 970

/-- The binary exponent of the doubles around `x`: `floor(log2 |x|)`, and
`-1022` throughout the subnormal range. -/
def binade (x : ℚ) : Int := max (Int.log 2 |x|) (-1022)

/-- The spacing of the doubles around `x`: 53 significant bits. -/
def ulp (x : ℚ) : ℚ := (2 : ℚ) ^ (binade x - 52)

/-- The double nearest to `x`, ties to even, overflow aside. -/
def roundFinite (x : ℚ) : ℚ := roundHalfEven (x / ulp x) * ulp x

/-- The double a real value rounds to (round to nearest, ties to even). -/
def roundDouble (x : ℚ) : JsNumber :=
  if overflowThreshold ≤ |x| then (if 0 < x then .posInf else .negInf)
  else .finite (roundFinite x)

/-- The number a JSON number literal of value `q` parses to. -/
def toDouble (q : ℚ) : JsNumber := roundDouble q

/-- The value of `x > 0`. -/
def JsNumber.gtZero : JsNumber → Bool
  | .finite q => decide (0 < q)
  | .posInf => true
  | .negInf => false
  | .nan => false

/-- The value of `x - y`. -/
def JsNumber.sub : JsNumber → JsNumber → JsNumber
  | .nan, _ => .nan
  | _, .nan => .nan
  | .finite a, .finite b => roundDouble (a - b)
  | .finite _, .posInf => .negInf
  | .finite _, .negInf => .posInf
  | .posInf, .posInf => .nan
  | .posInf, _ => .posInf
  | .negInf, .negInf => .nan
  | .negInf, _ => .negInf

/-- The value of `Math.max(0, x)`. -/
def JsNumber.maxZero : JsNumber → JsNumber
  | .nan => .nan
  | .posInf => .posInf
  | .negInf => .finite 0
  | .finite q => .finite (max 0 q)

/-! ## Data -/

/-- A voucher record as the list endpoints return it (the fields the script
reads; `created_at` is only passed to the locale date formatter).  The two
amounts are the values of the number literals in the body. -/
structure Voucher where
  id : Nat
  code : String
  current_balance : ℚ
  total_loaded : ℚ
  creator : Option String
  deriving DecidableEq, Repr

/-- The two response shapes `loadVouchers` handles: a raw array, or an object
with `results` and `count`. -/
inductive ListResponse where
  | raw (items : List Voucher)
  | envelope (results : List Voucher) (count : Int)
  deriving DecidableEq, Repr

/-- Payload of `/statistics/`. -/
structure Statistics where
  total_vouchers : Int
  total_balance : ℚ
  active_vouchers : Int
  disabled_vouchers : Int
  sold_vouchers : Int
  deriving DecidableEq, Repr

/-- The `onclick` handlers rendered into a voucher row. -/
inductive RowAction where
  | copyAndMarkSold (id : Nat) (code : String)
  | toggleDropdown (id : Nat)
  | viewVoucherDetails (id : Nat)
  | disableVoucher (id : Nat)
  | enableVoucher (id : Nat)
  deriving DecidableEq, Repr

/-- One `<tr>` of the voucher table. -/
structure VoucherRow where
  code : String
  balance : ℚ
  totalLoaded : ℚ
  spent : JsNumber
  creator : String
  actions : List RowAction
  menuId : String
  menuDisplay : String
  deriving DecidableEq, Repr

/-- Content of `#vouchersContainer`. -/
inductive VouchersView where
  | message (text : String)
  | table (rows : List VoucherRow)
  deriving DecidableEq, Repr

/-- A generated page-number button: its label, which is also the argument of
its `app.goToPage(..)` handler, and whether it carries the `active` class. -/
structure PageButton where
  page : Int
  active : Bool
  deriving DecidableEq, Repr

/-- The pagination block: `style.display` of `#paginationContainer`, the text
of `#paginationInfo`, `disabled` of `#prevPage` and `#nextPage`, and the
buttons inside `#pageNumbers`. -/
structure Pagination where
  display : String
  info : String
  prevDisabled : Bool
  nextDisabled : Bool
  pageNumbers : List PageButton
  deriving DecidableEq, Repr

/-- The part of the page the list code touches.  `none` for a container means
`document.getElementById` returns `null`; the elements inside the pagination
block are dereferenced by the script without a guard and are present whenever
the block is. -/
structure Document where
  vouchersContainer : Option VouchersView
  paginationContainer : Option Pagination
  activeTabButton : Option String
  stats : Option Statistics
  deriving DecidableEq, Repr

/-- Request body of an `apiCall`. -/
inductive Body where
  | empty
  | initialValue (amount : ℚ)
  deriving DecidableEq, Repr

/-- Text of a notification, by the template that builds it. -/
inductive Alert where
  /-- Template "Successfully created N vouchers worth Rs A each!". -/
  | bulkCreated (successCount : Int) (amount : ℚ)
  /-- Template "Failed to create N vouchers. Check console for details.". -/
  | bulkFailed (errorCount : Int)
  /-- Prefix "Failed to load vouchers: ". -/
  | loadFailed (message : String)
  /-- Template "Voucher code C copied to clipboard and marked as sold!". -/
  | copiedAndSold (code : String)
  /-- Prefix "Failed to copy and mark voucher as sold: ". -/
  | copyAndMarkSoldFailed (message : String)
  /-- Template "Voucher C balance: Rs B". -/
  | balanceFound (code : String) (balance : ℚ)
  /-- Template "Voucher C is disabled. Balance: Rs B". -/
  | voucherDisabled (code : String) (balance : ℚ)
  /-- Template "Voucher C has been sold. Balance: Rs B". -/
  | voucherSold (code : String) (balance : ℚ)
  /-- Template "Voucher C not found". -/
  | voucherNotFound (code : String)
  /-- Prefix "Failed to check voucher balance: ". -/
  | checkBalanceFailed (message : String)
  deriving DecidableEq, Repr

/-- An outward call made by the script. -/
inductive Effect where
  | apiCall (endpoint : Option String) (method : String) (body : Body)
  | clipboardWrite (code : String)
  | showSuccess (a : Alert)
  | showError (a : Alert)
  | consoleError (message : String)
  deriving DecidableEq, Repr

/-- The fields of `this` that the list code reads and writes. -/
structure VoucherApp where
  currentTab : String
  currentPage : Int
  itemsPerPage : Int
  totalItems : Int
  deriving DecidableEq, Repr

/-- Application state, page document and the calls issued so far. -/
structure World where
  app : VoucherApp
  dom : Document
  trace : List Effect
  deriving DecidableEq, Repr

/-- The field initialisers of the constructor. -/
def VoucherApp.new : VoucherApp :=
  { currentTab := "active", currentPage := 1, itemsPerPage := 5, totalItems := 0 }

/-! ## Rendering -/

/-- The expression of the "Total Loaded" cell: the amount shown is given by
its literal, the test `total_loaded > 0` is made on the parsed number. -/
def totalLoadedCell (v : Voucher) : ℚ :=
  if (toDouble v.total_loaded).gtZero then v.total_loaded else v.current_balance

/-- The expression of the "Spent" cell, evaluated on the parsed amounts:
`Math.max(0, (total_loaded > 0 ? total_loaded : current_balance) - current_balance)`. -/
def spentCell (v : Voucher) : JsNumber :=
  JsNumber.maxZero
    (JsNumber.sub
      (if (toDouble v.total_loaded).gtZero then toDouble v.total_loaded
        else toDouble v.current_balance)
      (toDouble v.current_balance))

/-- The action buttons of a row, by current tab. -/
def rowActions (tab : String) (v : Voucher) : List RowAction :=
  if tab = "active" then
    [.copyAndMarkSold v.id v.code, .toggleDropdown v.id, .viewVoucherDetails v.id,
      .disableVoucher v.id]
  else if tab = "disabled" then
    [.toggleDropdown v.id, .viewVoucherDetails v.id, .enableVoucher v.id]
  else
    [.toggleDropdown v.id, .viewVoucherDetails v.id]

/-- The table row rendered for one voucher. -/
def voucherRow (tab : String) (v : Voucher) : VoucherRow :=
  { code := v.code
    balance := v.current_balance
    totalLoaded := totalLoadedCell v
    spent := spentCell v
    creator := match v.creator with
      | some username => username
      | none => "Unknown"
    actions := rowActions tab v
    menuId := "dropdown-" ++ toString v.id
    menuDisplay := "none" }

/-- The text shown for an empty list; `message` stays `undefined` for a tab
that is none of the three. -/
def emptyMessage (tab : String) : String :=
  if tab = "active" then "No active vouchers found"
  else if tab = "disabled" then "No disabled vouchers found"
  else if tab = "sold" then "No sold vouchers found"
  else "undefined"

/-- The markup `displayVouchers` builds: the empty-list message, or the table
with one row per voucher. -/
def vouchersView (tab : String) (vouchers : List Voucher) : VouchersView :=
  if vouchers.length = 0 then .message (emptyMessage tab)
  else .table (vouchers.map (voucherRow tab))

/-- Method `displayVouchers(vouchers)`: nothing happens when the container is
missing. -/
def displayVouchers (w : World) (vouchers : List Voucher) : World :=
  match w.dom.vouchersContainer with
  | none => w
  | some _ =>
    { w with dom := { w.dom with
        vouchersContainer := some (vouchersView w.app.currentTab vouchers) } }

/-! ## Pagination -/

/-- The text "Showing S-E of N vouchers". -/
def paginationInfoText (startItem endItem totalItems : Int) : String :=
  "Showing " ++ toString startItem ++ "-" ++ toString endItem ++ " of " ++
    toString totalItems ++ " vouchers"

/-- The loop `for (let i = startPage; i <= endPage; i++)` collecting `i`; the
first argument bounds the number of iterations. -/
def pageNumberLoop : Nat → Int → Int → List Int
  | 0, _, _ => []
  | fuel + 1, i, endPage =>
    if i ≤ endPage then i :: pageNumberLoop fuel (i + 1) endPage else []

/-- The values of `i` the page-number loop visits. -/
def pageNumberRange (startPage endPage : Int) : List Int :=
  pageNumberLoop (endPage + 1 - startPage).toNat startPage endPage

/-- The body of `updatePagination()` once the container is known to exist:
`pg` is the pagination block before the call. -/
def paginationView (app : VoucherApp) (pg : Pagination) : Pagination :=
  if app.totalItems ≤ app.itemsPerPage then
    { pg with display := "none" }
  else
    let startItem := (app.currentPage - 1) * app.itemsPerPage + 1
    let endItem := min (app.currentPage * app.itemsPerPage) app.totalItems
    let totalPages := mathCeilDiv app.totalItems app.itemsPerPage
    let startPage := max 1 (app.currentPage - 2)
    let endPage := min totalPages (startPage + 4)
    { display := "flex"
      info := paginationInfoText startItem endItem app.totalItems
      prevDisabled := decide (app.currentPage = 1)
      nextDisabled := decide (app.currentPage ≥ totalPages)
      pageNumbers := (pageNumberRange startPage endPage).map
        (fun i => { page := i, active := decide (i = app.currentPage) }) }

/-- Method `updatePagination()`: nothing happens when the container is missing. -/
def updatePagination (w : World) : World :=
  match w.dom.paginationContainer with
  | none => w
  | some pg =>
    { w with dom := { w.dom with paginationContainer := some (paginationView w.app pg) } }

/-! ## Loading the list -/

/-- The endpoint chosen by `loadVouchers`; `none` is the `undefined` left by
`let endpoint;` when the tab is none of the three. -/
def endpointFor (tab : String) : Option String :=
  if tab = "active" then some "/vouchers/"
  else if tab = "disabled" then some "/vouchers/disabled/"
  else if tab = "sold" then some "/vouchers/sold/"
  else none

/-- The value of `response.results || response`. -/
def ListResponse.vouchers : ListResponse → List Voucher
  | .raw items => items
  | .envelope results _ => results

/-- The value of `response.count || vouchers.length`: an array has no `count`,
and a `count` of `0` is falsy. -/
def ListResponse.totalItems : ListResponse → Int
  | .raw items => items.length
  | .envelope results count => if count ≠ 0 then count else results.length

/-- Method `loadStatistics()`, run to completion with the given outcome of the
`/statistics/` call. -/
def loadStatistics (w : World) (outcome : Except String Statistics) : World :=
  let w1 : World :=
    { w with trace := w.trace ++ [.apiCall (some "/statistics/") "GET" .empty] }
  match outcome with
  | .ok stats => { w1 with dom := { w1.dom with stats := some stats } }
  | .error message => { w1 with trace := w1.trace ++ [.consoleError message] }

/-- The part of `loadVouchers()` before its first suspension: the endpoint is
chosen from the current tab and the request is issued. -/
def loadVouchersStart (w : World) : World :=
  { w with trace := w.trace ++ [.apiCall (endpointFor w.app.currentTab) "GET" .empty] }

/-- The part of `loadVouchers()` after the list request settles. -/
def loadVouchersResume (w : World) (outcome : Except String ListResponse)
    (stats : Except String Statistics) : World :=
  match outcome with
  | .error message => { w with trace := w.trace ++ [.showError (.loadFailed message)] }
  | .ok response =>
    let vouchers := response.vouchers
    let w1 : World := { w with app := { w.app with totalItems := response.totalItems } }
    let startIndex := (w1.app.currentPage - 1) * w1.app.itemsPerPage
    let endIndex := startIndex + w1.app.itemsPerPage
    let paginatedVouchers := jsSlice vouchers startIndex endIndex
    loadStatistics (updatePagination (displayVouchers w1 paginatedVouchers)) stats

/-- Method `loadVouchers()` run without interleaving: the request is issued
and settles before anything else happens. -/
def loadVouchers (w : World) (outcome : Except String ListResponse)
    (stats : Except String Statistics) : World :=
  loadVouchersResume (loadVouchersStart w) outcome stats

/-! ## Tabs and page navigation

The handlers call `this.loadVouchers()` without awaiting it, so they return
once the list request has been issued. -/

/-- The tab button that receives the `active` class. -/
def tabButtonFor (tab : String) : Option String :=
  if tab = "active" then some "activeTab"
  else if tab = "disabled" then some "disabledTab"
  else if tab = "sold" then some "soldTab"
  else none

/-- Method `switchTab(tab)`. -/
def switchTab (w : World) (tab : String) : World :=
  let w1 : World := { w with app := { w.app with currentTab := tab, currentPage := 1 } }
  loadVouchersStart { w1 with dom := { w1.dom with activeTabButton := tabButtonFor tab } }

/-- Method `goToPage(page)`. -/
def goToPage (w : World) (page : Int) : World :=
  loadVouchersStart { w with app := { w.app with currentPage := page } }

/-- Method `previousPage()`. -/
def previousPage (w : World) : World :=
  if w.app.currentPage > 1 then
    loadVouchersStart { w with app := { w.app with currentPage := w.app.currentPage - 1 } }
  else w

/-- Method `nextPage()`. -/
def nextPage (w : World) : World :=
  let totalPages := mathCeilDiv w.app.totalItems w.app.itemsPerPage
  if w.app.currentPage < totalPages then
    loadVouchersStart { w with app := { w.app with currentPage := w.app.currentPage + 1 } }
  else w

/-! ## Mutating actions

The submit-button bookkeeping (label, `disabled`) and the form reset of the
handlers do not touch the list state and are left out. -/

/-- What `handleBulkVoucherCreate` ends with: the world and its two local
counters. -/
structure BulkResult where
  world : World
  successCount : Int
  errorCount : Int
  deriving DecidableEq, Repr

/-- The loop `for (let i = 0; i < count; i++)` of `handleBulkVoucherCreate`,
entered at index `i`; `transport k` is the outcome of the create call made at
index `k`, and the first argument bounds the number of iterations. -/
def bulkCreateLoop (amount : ℚ) (count : Int) (transport : Nat → Except String Unit) :
    Nat → Int → BulkResult → BulkResult
  | 0, _, acc => acc
  | fuel + 1, i, acc =>
    if i < count then
      let issued : World :=
        { acc.world with trace :=
            acc.world.trace ++ [.apiCall (some "/vouchers/") "POST" (.initialValue amount)] }
      match transport i.toNat with
      | .ok _ =>
        bulkCreateLoop amount count transport fuel (i + 1)
          { acc with world := issued, successCount := acc.successCount + 1 }
      | .error message =>
        bulkCreateLoop amount count transport fuel (i + 1)
          { acc with
            world := { issued with trace := issued.trace ++ [.consoleError message] }
            errorCount := acc.errorCount + 1 }
    else acc

/-- Method `handleBulkVoucherCreate(e)` with the parsed form values `amount`
and `count`. -/
def handleBulkVoucherCreate (w : World) (amount : ℚ) (count : Int)
    (transport : Nat → Except String Unit) : BulkResult :=
  let r := bulkCreateLoop amount count transport count.toNat 0
    { world := w, successCount := 0, errorCount := 0 }
  let w1 : World :=
    if r.successCount > 0 then
      loadVouchersStart { r.world with trace :=
        r.world.trace ++ [.showSuccess (.bulkCreated r.successCount amount)] }
    else r.world
  let w2 : World :=
    if r.errorCount > 0 then
      { w1 with trace := w1.trace ++ [.showError (.bulkFailed r.errorCount)] }
    else w1
  { r with world := w2 }

/-- The endpoint `/vouchers/${id}/mark-sold/`. -/
def markSoldEndpoint (id : Nat) : String := "/vouchers/" ++ toString id ++ "/mark-sold/"

/-- Method `copyAndMarkSold(id, code)`: `clipboard` is the outcome of
`navigator.clipboard.writeText(code)`, `markSold` the outcome of the
mark-sold call (read only if that call is made). -/
def copyAndMarkSold (w : World) (id : Nat) (code : String)
    (clipboard : Except String Unit) (markSold : Except String Unit) : World :=
  let w1 : World := { w with trace := w.trace ++ [.clipboardWrite code] }
  match clipboard with
  | .error message =>
    { w1 with trace := w1.trace ++
        [.consoleError message, .showError (.copyAndMarkSoldFailed message)] }
  | .ok _ =>
    let w2 : World :=
      { w1 with trace := w1.trace ++ [.apiCall (some (markSoldEndpoint id)) "POST" .empty] }
    match markSold with
    | .error message =>
      { w2 with trace := w2.trace ++
          [.consoleError message, .showError (.copyAndMarkSoldFailed message)] }
    | .ok _ =>
      loadVouchersStart { w2 with trace := w2.trace ++ [.showSuccess (.copiedAndSold code)] }


/-! ## Observations used in the statements -/

/-- The rows currently in the voucher table: empty when the container is
absent or shows the empty-list message. -/
def displayedRows (w : World) : List VoucherRow :=
  match w.dom.vouchersContainer with
  | some (.table rows) => rows
  | _ => []

/-- The calls issued since the trace had length `n`. -/
def issuedSince (n : Nat) (w : World) : List Effect := w.trace.drop n

/-- Whether a call is a list reload: a `GET` on the endpoint of `tab`. -/
def isReloadOf (tab : String) (e : Effect) : Bool :=
  decide (e = .apiCall (endpointFor tab) "GET" .empty)

/-- Whether an awaited call succeeded. -/
def succeeded (r : Except String Unit) : Bool :=
  match r with
  | .ok _ => true
  | .error _ => false

/-- Whether a call is a request to the backend. -/
def Effect.isApiCall : Effect → Bool
  | .apiCall _ _ _ => true
  | _ => false

/-- Whether a call is a voucher creation with the given amount. -/
def isCreateCall (amount : ℚ) (e : Effect) : Bool :=
  decide (e = .apiCall (some "/vouchers/") "POST" (.initialValue amount))

/-- Whether a call is the mark-sold request for `id`. -/
def isMarkSoldCall (id : Nat) (e : Effect) : Bool :=
  decide (e = .apiCall (some (markSoldEndpoint id)) "POST" .empty)

/-- The calls made by `n` iterations of the bulk-create loop from index `k`:
one create call each, followed by a console entry when it failed. -/
def bulkSegment (amount : ℚ) (transport : Nat → Except String Unit) : Nat → Nat → List Effect
  | _, 0 => []
  | k, n + 1 =>
    (Effect.apiCall (some "/vouchers/") "POST" (.initialValue amount) ::
      (match transport k with
        | .ok _ => []
        | .error message => [Effect.consoleError message])) ++
      bulkSegment amount transport (k + 1) n

/-- The number of successful calls among indices `k, .., k + n - 1`. -/
def successesFrom (transport : Nat → Except String Unit) : Nat → Nat → Nat
  | _, 0 => 0
  | k, n + 1 => (if succeeded (transport k) then 1 else 0) + successesFrom transport (k + 1) n

/-! ## Sample values -/

/-- A voucher numbered `i`. -/
def sampleVoucher (i : Nat) : Voucher :=
  { id := i, code := "V" ++ toString i, current_balance := 100, total_loaded := 0,
    creator := none }

/-- The vouchers numbered `1` to `n`. -/
def sampleVouchers (n : Nat) : List Voucher := (List.range n).map (fun i => sampleVoucher (i + 1))

/-- A page with both containers, nothing rendered yet. -/
def sampleDocument : Document :=
  { vouchersContainer := some (.message "")
    paginationContainer := some
      { display := "none", info := "", prevDisabled := false, nextDisabled := false,
        pageNumbers := [] }
    activeTabButton := some "activeTab"
    stats := none }

/-- A world on `sampleDocument` with the given tab, page and cached count. -/
def sampleWorld (tab : String) (page total : Int) : World :=
  { app := { currentTab := tab, currentPage := page, itemsPerPage := 5, totalItems := total }
    dom := sampleDocument
    trace := [] }

/-- A voucher loaded with 150 of which 100 remain. -/
def spentVoucher : Voucher :=
  { id := 9, code := "V9", current_balance := 100, total_loaded := 150, creator := some "admin" }

/-- A voucher with the amounts `0.1` and `0.3`. -/
def decimalVoucher : Voucher :=
  { id := 7, code := "V7", current_balance := 1 / 10, total_loaded := 3 / 10, creator := none }

/-- A voucher whose balance literal `1e999` is beyond the range of doubles. -/
def hugeVoucher : Voucher :=
  { id := 8, code := "V8", current_balance := 10 ^ 999, total_loaded := 0, creator := none }

/-- Two failures among five calls: the second and the fourth fail. -/
def sampleTransport (i : Nat) : Except String Unit :=
  if i = 1 ∨ i = 3 then .error "HTTP 500" else .ok ()

/-! ## Balance check -/

/-- Text written to the `value` of `#balance_result`, by template. -/
inductive BalanceText where
  /-- Template "Rs B". -/
  | balance (amount : ℚ)
  /-- Template "Rs B (DISABLED)". -/
  | disabled (amount : ℚ)
  /-- Template "Rs B (SOLD)". -/
  | sold (amount : ℚ)
  /-- Text "Voucher not found". -/
  | notFound
  /-- Text "Error checking balance". -/
  | error
  deriving DecidableEq, Repr

/-- The `value` and `style.color` of `#balance_result`. -/
structure BalanceField where
  value : BalanceText
  color : String
  deriving DecidableEq, Repr

/-- What `handleCheckBalance` leaves: the world and the content it wrote to
`#balance_result` (`none` when that element is missing). -/
structure BalanceCheck where
  world : World
  balanceResult : Option BalanceField
  deriving DecidableEq, Repr

/-- The value of `list.find(v => v.code === voucherCode)` on an array. -/
def findByCode (voucherCode : String) (list : List Voucher) : Option Voucher :=
  list.find? (fun v => decide (v.code = voucherCode))

/-- The value of `vouchers.results?.find(..) || vouchers.find(..)`: an object
with `results` has no `find` of its own, so the second operand throws a
`TypeError` when the first finds nothing. -/
def findActive (voucherCode : String) : ListResponse → Except String (Option Voucher)
  | .raw items => .ok (findByCode voucherCode items)
  | .envelope results _ =>
    match findByCode voucherCode results with
    | some v => .ok (some v)
    | none => .error "vouchers.find is not a function"

/-- The value of `list.find(..)` on a response of the disabled or sold
endpoint, `name` being the variable that holds it: only an array has `find`. -/
def findInList (name voucherCode : String) : ListResponse → Except String (Option Voucher)
  | .raw items => .ok (findByCode voucherCode items)
  | .envelope _ _ => .error (name ++ ".find is not a function")

/-- The `catch` block of `handleCheckBalance`. -/
def checkBalanceCatch (w : World) (hasField : Bool) (message : String) : BalanceCheck :=
  { world := { w with trace := w.trace ++ [.showError (.checkBalanceFailed message)] }
    balanceResult :=
      if hasField then some { value := .error, color := "var(--danger-color)" } else none }

/-- Method `handleCheckBalance(e)` for the submitted `voucherCode`: `hasField`
tells whether `#balance_result` exists, and `active`, `disabled`, `sold` are
the outcomes of the three list calls (each read only if its call is made). -/
def handleCheckBalance (w : World) (hasField : Bool) (voucherCode : String)
    (active disabled sold : Except String ListResponse) : BalanceCheck :=
  let w1 : World := { w with trace := w.trace ++ [.apiCall (some "/vouchers/") "GET" .empty] }
  match active with
  | .error message => checkBalanceCatch w1 hasField message
  | .ok vouchers =>
    match findActive voucherCode vouchers with
    | .error message => checkBalanceCatch w1 hasField message
    | .ok (some voucher) =>
      { world := { w1 with trace := w1.trace ++
            [.showSuccess (.balanceFound voucherCode voucher.current_balance)] }
        balanceResult :=
          if hasField then
            some { value := .balance voucher.current_balance
                   color := if (toDouble voucher.current_balance).gtZero then
                       "var(--success-color)"
                     else "var(--text-secondary)" }
          else none }
    | .ok none =>
      let w2 : World :=
        { w1 with trace := w1.trace ++ [.apiCall (some "/vouchers/disabled/") "GET" .empty] }
      match disabled with
      | .error message => checkBalanceCatch w2 hasField message
      | .ok disabledVouchers =>
        let w3 : World :=
          { w2 with trace := w2.trace ++ [.apiCall (some "/vouchers/sold/") "GET" .empty] }
        match sold with
        | .error message => checkBalanceCatch w3 hasField message
        | .ok soldVouchers =>
          match findInList "disabledVouchers" voucherCode disabledVouchers with
          | .error message => checkBalanceCatch w3 hasField message
          | .ok disabledVoucher =>
            match findInList "soldVouchers" voucherCode soldVouchers with
            | .error message => checkBalanceCatch w3 hasField message
            | .ok soldVoucher =>
              match disabledVoucher, soldVoucher with
              | some v, _ =>
                { world := { w3 with trace := w3.trace ++
                      [.showError (.voucherDisabled voucherCode v.current_balance)] }
                  balanceResult :=
                    if hasField then
                      some { value := .disabled v.current_balance, color := "var(--danger-color)" }
                    else none }
              | none, some v =>
                { world := { w3 with trace := w3.trace ++
                      [.showError (.voucherSold voucherCode v.current_balance)] }
                  balanceResult :=
                    if hasField then
                      some { value := .sold v.current_balance, color := "var(--warning-color)" }
                    else none }
              | none, none =>
                { world := { w3 with trace := w3.trace ++
                      [.showError (.voucherNotFound voucherCode)] }
                  balanceResult :=
                    if hasField then
                      some { value := .notFound, color := "var(--danger-color)" }
                    else none }

/-! ## Transport -/

/-- A parsed JSON value: a number by the value of its literal, an object by
its members in source order. -/
inductive Json where
  | null
  | bool (b : Bool)
  | num (q : ℚ)
  | str (s : String)
  | arr (items : List Json)
  | obj (members : List (String × Json))

/-- Whether a JSON value is `null`. -/
def Json.isNull : Json → Bool
  | .null => true
  | _ => false

/-- Truthiness of a parsed JSON value: `null`, `false`, a number that parses
to zero and the empty string are falsy; every array and object is truthy. -/
def Json.truthy : Json → Bool
  | .null => false
  | .bool b => b
  | .num q => decide (toDouble q ≠ .finite 0)
  | .str s => decide (s ≠ "")
  | .arr _ => true
  | .obj _ => true

/-- The member of an object with the given key: the last one when the key is
repeated. -/
def lastMember (key : String) : List (String × Json) → Option Json
  | [] => none
  | (k, v) :: rest =>
    match lastMember key rest with
    | some later => some later
    | none => if k = key then some v else none

/-- The value of `value.key` for a key that no prototype defines (`detail`,
`message`, `error`) on a value other than `null`: the own property of an
object, and `undefined` (here `none`) on anything else. -/
def Json.get (key : String) : Json → Option Json
  | .obj members => lastMember key members
  | _ => none

mutual
/-- The string conversion `new Error(value)` applies to its argument.  The
conversion of a number is the argument `numberToString`.  An object with an
own `toString` member has no callable conversion: a `TypeError` is thrown,
whose message (in the wording of V8) is the error of the result. -/
def Json.toJsString (numberToString : JsNumber → String) : Json → Except String String
  | .null => .ok "null"
  | .bool true => .ok "true"
  | .bool false => .ok "false"
  | .num q => .ok (numberToString (toDouble q))
  | .str s => .ok s
  | .arr items => Json.joinItems numberToString items
  | .obj members =>
    if members.any (fun member => member.1 == "toString") then
      .error "Cannot convert object to primitive value"
    else .ok "[object Object]"
/-- The value of `items.join(",")`, as the string conversion of an array
computes it: `null` contributes the empty string. -/
def Json.joinItems (numberToString : JsNumber → String) : List Json → Except String String
  | [] => .ok ""
  | item :: rest =>
    match (if item.isNull then .ok "" else Json.toJsString numberToString item) with
    | .error typeError => .error typeError
    | .ok first =>
      match rest with
      | [] => .ok first
      | _ :: _ =>
        match Json.joinItems numberToString rest with
        | .error typeError => .error typeError
        | .ok others => .ok (first ++ "," ++ others)
end

/-- The value of `a || b` for a property value `a`, `none` being
`undefined`. -/
def jsOr (a : Option Json) (b : Json) : Json :=
  match a with
  | some value => if value.truthy then value else b
  | none => b

/-- The value of
`errorData.detail || errorData.message || errorData.error || errorMessage`. -/
def chosenMessage (errorMessage : String) (errorData : Json) : Json :=
  jsOr (errorData.get "detail")
    (jsOr (errorData.get "message") (jsOr (errorData.get "error") (.str errorMessage)))

/-- The message of the error `throw new Error(value)` raises: that of the new
`Error`, or that of the `TypeError` of the string conversion. -/
def thrownMessage (numberToString : JsNumber → String) (value : Json) : String :=
  match value.toJsString numberToString with
  | .ok message => message
  | .error typeError => typeError

/-- What `apiCall` reads from the response of `fetch`: `errorBody` is the
outcome of `response.json()` on a non-success response, `none` when it
rejects; `jsonContentType` is the test
`contentType && contentType.includes('application/json')`; `payload` is the
outcome of `response.json()` on a success response, `none` when it rejects. -/
structure HttpResponse (α : Type) where
  ok : Bool
  status : Nat
  statusText : String
  errorBody : Option Json
  jsonContentType : Bool
  payload : Option α

/-- What `apiCall` resolves to: the parsed body, or the object
`{ message: 'Operation completed successfully' }`. -/
inductive ApiValue (α : Type) where
  | parsed (value : α)
  | completed
  deriving DecidableEq, Repr

/-- The message of the error `apiCall` throws for a non-success response.  A
body that does not parse, and the body `null` (whose property access throws
inside the same `try`), lead to the `catch` block. -/
def apiErrorMessage (numberToString : JsNumber → String) (status : Nat) (statusText : String)
    (errorBody : Option Json) : String :=
  let errorMessage := "HTTP " ++ toString status
  let caught := if statusText = "" then errorMessage else statusText
  match errorBody with
  | none => caught
  | some errorData =>
    if errorData.isNull then caught
    else thrownMessage numberToString (chosenMessage errorMessage errorData)

/-- Method `apiCall(endpoint, method, data)` from the point where `fetch` has
resolved with `response`; `numberToString` is the string conversion of
numbers. -/
def apiCall {α : Type} (numberToString : JsNumber → String) (response : HttpResponse α) :
    Except String (ApiValue α) :=
  if response.ok = false then
    .error (apiErrorMessage numberToString response.status response.statusText
      response.errorBody)
  else if response.jsonContentType = false then
    .ok .completed
  else
    match response.payload with
    | some value => .ok (.parsed value)
    | none => .ok .completed

/-- Whether `body.key` is missing or falsy. -/
def Json.lacks (body : Json) (key : String) : Bool :=
  match body.get key with
  | none => true
  | some value => !value.truthy

/-- A number-to-string conversion for the samples: exact on integer-valued
doubles below `1e21` and on the three non-finite values. -/
def sampleNumberToString : JsNumber → String
  | .finite q => toString q
  | .posInf => "Infinity"
  | .negInf => "-Infinity"
  | .nan => "NaN"

/-! ## Dropdown menus -/

/-- A `.dropdown-menu` element: its `id` and `style.display`. -/
structure DropdownMenu where
  id : String
  display : String
  deriving DecidableEq, Repr

/-- The element id `dropdown-${id}`. -/
def dropdownId (id : Nat) : String := "dropdown-" ++ toString id

/-- The loop of `toggleDropdown` that closes every menu whose id is not the
target. -/
def closeOtherDropdowns (target : String) (menus : List DropdownMenu) : List DropdownMenu :=
  menus.map (fun menu => if menu.id ≠ target then { menu with display := "none" } else menu)

/-- The toggle of `document.getElementById(target)`: the first element with
that id, if any, has its display flipped. -/
def toggleTarget (target : String) : List DropdownMenu → List DropdownMenu
  | [] => []
  | menu :: rest =>
    if menu.id = target then
      { menu with display := if menu.display = "none" then "block" else "none" } :: rest
    else menu :: toggleTarget target rest

/-- Method `toggleDropdown(id)` on the dropdown menus of the page, in
document order. -/
def toggleDropdown (menus : List DropdownMenu) (id : Nat) : List DropdownMenu :=
  toggleTarget (dropdownId id) (closeOtherDropdowns (dropdownId id) menus)

/-- The document click listener that closes dropdowns: `insideDropdown` is
the test `e.target.closest('.dropdown')`. -/
def documentClick (menus : List DropdownMenu) (insideDropdown : Bool) : List DropdownMenu :=
  if insideDropdown then menus
  else menus.map (fun menu => { menu with display := "none" })

/-- The states of the menus reachable from `init` by `toggleDropdown` calls
and document clicks. -/
inductive DropdownReachable (init : List DropdownMenu) : List DropdownMenu → Prop where
  | start : DropdownReachable init init
  | toggle (menus : List DropdownMenu) (id : Nat) :
      DropdownReachable init menus → DropdownReachable init (toggleDropdown menus id)
  | click (menus : List DropdownMenu) (insideDropdown : Bool) :
      DropdownReachable init menus → DropdownReachable init (documentClick menus insideDropdown)

/-- The number of menus that are open (display other than `none`). -/
def openCount (menus : List DropdownMenu) : Nat :=
  menus.countP (fun menu => decide (menu.display ≠ "none"))

/-- The page window `vouchers.slice(startIndex, endIndex)` of `loadVouchers`
for a given page size and page. -/
def pageWindow {α : Type} (itemsPerPage : Int) (vouchers : List α) (currentPage : Int) : List α :=
  jsSlice vouchers ((currentPage - 1) * itemsPerPage)
    ((currentPage - 1) * itemsPerPage + itemsPerPage)

/-- Three menus, all closed. -/
def sampleMenus : List DropdownMenu :=
  [{ id := "dropdown-1", display := "none" }, { id := "dropdown-2", display := "none" },
    { id := "dropdown-3", display := "none" }]

/-! ## Lemmas on numbers and slices -/

theorem mathCeilDiv_eq_ceil (a b : Int) (hb : 0 < b) :
    mathCeilDiv a b = ⌈(a : ℚ) / (b : ℚ)⌉ := by
  obtain ⟨n, rfl⟩ := Int.eq_ofNat_of_zero_le hb.le
  have h := Rat.floor_intCast_div_natCast (-a) n
  have h2 : ((-a : ℤ) : ℚ) / (n : ℚ) = -((a : ℚ) / (n : ℚ)) := by
    push_cast
    ring
  rw [h2, Int.floor_neg] at h
  unfold mathCeilDiv
  simp only [Int.cast_natCast]
  omega

theorem mathCeilDiv_five (a : Int) : mathCeilDiv a 5 = (a + 4) / 5 := by
  unfold mathCeilDiv
  omega

theorem sliceIndex_of_nonneg (len : Nat) (k : Int) (hk : 0 ≤ k) :
    sliceIndex len k = min k.toNat len := by
  unfold sliceIndex
  rw [if_neg (not_lt.mpr hk)]

theorem jsSlice_of_nonneg {α : Type} (xs : List α) (a n : Int) (ha : 0 ≤ a) (hn : 0 ≤ n) :
    jsSlice xs a (a + n) = (xs.drop a.toNat).take n.toNat := by
  unfold jsSlice
  simp only [sliceIndex_of_nonneg _ _ ha, sliceIndex_of_nonneg _ _ (add_nonneg ha hn)]
  by_cases h : a.toNat ≤ xs.length
  · rw [min_eq_left h, List.take_eq_take, List.length_drop]
    omega
  · have h1 : xs.length ≤ a.toNat := by omega
    rw [min_eq_right h1, List.drop_of_length_le h1, List.drop_of_length_le (le_refl _)]
    simp


/-! ## Frame lemmas -/

@[simp]
theorem displayVouchers_app (w : World) (vs : List Voucher) :
    (displayVouchers w vs).app = w.app := by
  unfold displayVouchers
  split <;> rfl

@[simp]
theorem displayVouchers_trace (w : World) (vs : List Voucher) :
    (displayVouchers w vs).trace = w.trace := by
  unfold displayVouchers
  split <;> rfl

@[simp]
theorem displayVouchers_paginationContainer (w : World) (vs : List Voucher) :
    (displayVouchers w vs).dom.paginationContainer = w.dom.paginationContainer := by
  unfold displayVouchers
  split <;> rfl

theorem displayVouchers_vouchersContainer (w : World) (vs : List Voucher) :
    (displayVouchers w vs).dom.vouchersContainer =
      w.dom.vouchersContainer.map (fun _ => vouchersView w.app.currentTab vs) := by
  unfold displayVouchers
  cases h : w.dom.vouchersContainer <;> simp [h]

@[simp]
theorem updatePagination_app (w : World) : (updatePagination w).app = w.app := by
  unfold updatePagination
  split <;> rfl

@[simp]
theorem updatePagination_trace (w : World) : (updatePagination w).trace = w.trace := by
  unfold updatePagination
  split <;> rfl

@[simp]
theorem updatePagination_vouchersContainer (w : World) :
    (updatePagination w).dom.vouchersContainer = w.dom.vouchersContainer := by
  unfold updatePagination
  split <;> rfl

theorem updatePagination_paginationContainer (w : World) :
    (updatePagination w).dom.paginationContainer =
      w.dom.paginationContainer.map (paginationView w.app) := by
  unfold updatePagination
  cases h : w.dom.paginationContainer <;> simp [h]

@[simp]
theorem loadStatistics_app (w : World) (r : Except String Statistics) :
    (loadStatistics w r).app = w.app := by
  unfold loadStatistics
  split <;> rfl

@[simp]
theorem loadStatistics_vouchersContainer (w : World) (r : Except String Statistics) :
    (loadStatistics w r).dom.vouchersContainer = w.dom.vouchersContainer := by
  unfold loadStatistics
  split <;> rfl

@[simp]
theorem loadStatistics_paginationContainer (w : World) (r : Except String Statistics) :
    (loadStatistics w r).dom.paginationContainer = w.dom.paginationContainer := by
  unfold loadStatistics
  split <;> rfl

@[simp]
theorem loadVouchersStart_app (w : World) : (loadVouchersStart w).app = w.app := rfl

@[simp]
theorem loadVouchersStart_dom (w : World) : (loadVouchersStart w).dom = w.dom := rfl

@[simp]
theorem loadVouchersStart_trace (w : World) :
    (loadVouchersStart w).trace =
      w.trace ++ [.apiCall (endpointFor w.app.currentTab) "GET" .empty] := rfl

theorem displayedRows_vouchersView (w : World) (tab : String) (vs : List Voucher)
    (h : w.dom.vouchersContainer = some (vouchersView tab vs)) :
    displayedRows w = vs.map (voucherRow tab) := by
  unfold displayedRows
  rw [h]
  unfold vouchersView
  cases vs <;> simp

/-- What a settled list request leaves behind: the cached count, the content
of the voucher container and the pagination block. -/
theorem loadVouchersResume_ok (w : World) (response : ListResponse)
    (stats : Except String Statistics) :
    (loadVouchersResume w (.ok response) stats).app =
      { w.app with totalItems := response.totalItems } ∧
    (loadVouchersResume w (.ok response) stats).dom.vouchersContainer =
      w.dom.vouchersContainer.map (fun _ => vouchersView w.app.currentTab
        (jsSlice response.vouchers ((w.app.currentPage - 1) * w.app.itemsPerPage)
          ((w.app.currentPage - 1) * w.app.itemsPerPage + w.app.itemsPerPage))) ∧
    (loadVouchersResume w (.ok response) stats).dom.paginationContainer =
      w.dom.paginationContainer.map
        (paginationView { w.app with totalItems := response.totalItems }) := by
  refine ⟨?_, ?_, ?_⟩
  · simp [loadVouchersResume]
  · simp [loadVouchersResume, displayVouchers_vouchersContainer]
  · simp [loadVouchersResume, updatePagination_paginationContainer]

/-! ## Tabs and page navigation -/

/-- C1: from every prior state, `switchTab(t)` for `t` one of `active`,
`disabled`, `sold` leaves `currentTab = t` and `currentPage = 1`, issues the
list request on the endpoint of `t`, and when that request settles the rows
shown are the first five items of the response (page 1). -/
theorem switchTab_resets_page (w : World) (t : String)
    (ht : t = "active" ∨ t = "disabled" ∨ t = "sold")
    (hsize : w.app.itemsPerPage = 5) (hdom : w.dom.vouchersContainer ≠ none) :
    (switchTab w t).app.currentTab = t ∧
    (switchTab w t).app.currentPage = 1 ∧
    (switchTab w t).trace = w.trace ++ [.apiCall (endpointFor t) "GET" .empty] ∧
    (t = "active" → endpointFor t = some "/vouchers/") ∧
    (t = "disabled" → endpointFor t = some "/vouchers/disabled/") ∧
    (t = "sold" → endpointFor t = some "/vouchers/sold/") ∧
    ∀ (response : ListResponse) (stats : Except String Statistics),
      displayedRows (loadVouchersResume (switchTab w t) (.ok response) stats) =
        (response.vouchers.take 5).map (voucherRow t) := by
  refine ⟨rfl, rfl, rfl, ?_, ?_, ?_, ?_⟩
  · rintro rfl
    rfl
  · rintro rfl
    rfl
  · rintro rfl
    rfl
  · intro response stats
    apply displayedRows_vouchersView
    rw [(loadVouchersResume_ok _ response stats).2.1]
    have hs : jsSlice response.vouchers 0 5 = response.vouchers.take 5 := by
      simpa using jsSlice_of_nonneg response.vouchers 0 5 (le_refl _) (by decide)
    cases hv : w.dom.vouchersContainer with
    | none => exact absurd hv hdom
    | some view => simp [switchTab, hv, hsize, hs]

theorem switchTab_resets_page_witness :
    (switchTab (sampleWorld "active" 3 12) "sold").app.currentTab = "sold" ∧
    (switchTab (sampleWorld "active" 3 12) "sold").app.currentPage = 1 ∧
    (switchTab (sampleWorld "active" 3 12) "sold").trace =
      [.apiCall (some "/vouchers/sold/") "GET" .empty] ∧
    displayedRows (loadVouchersResume (switchTab (sampleWorld "active" 3 12) "sold")
        (.ok (.raw (sampleVouchers 7))) (.error "offline")) =
      ((sampleVouchers 7).take 5).map (voucherRow "sold") := by
  have h := switchTab_resets_page (sampleWorld "active" 3 12) "sold"
    (Or.inr (Or.inr rfl)) rfl (by simp [sampleWorld, sampleDocument])
  exact ⟨h.1, h.2.1, h.2.2.1, h.2.2.2.2.2.2 _ _⟩

/-- C3: with `totalPages = ceil(totalItems / 5)`, `nextPage()` sets
`currentPage` to `p + 1` and issues the reload when `p < totalPages`, and
otherwise changes nothing and issues nothing. -/
theorem nextPage_spec (w : World) (hsize : w.app.itemsPerPage = 5) :
    (w.app.currentPage < ⌈(w.app.totalItems : ℚ) / 5⌉ →
      (nextPage w).app = { w.app with currentPage := w.app.currentPage + 1 } ∧
      (nextPage w).dom = w.dom ∧
      (nextPage w).trace =
        w.trace ++ [.apiCall (endpointFor w.app.currentTab) "GET" .empty]) ∧
    (¬ w.app.currentPage < ⌈(w.app.totalItems : ℚ) / 5⌉ → nextPage w = w) := by
  have hc : mathCeilDiv w.app.totalItems w.app.itemsPerPage = ⌈(w.app.totalItems : ℚ) / 5⌉ := by
    rw [hsize, mathCeilDiv_eq_ceil _ _ (by decide)]
    norm_num
  constructor
  · intro h
    rw [← hc] at h
    simp [nextPage, h]
  · intro h
    rw [← hc] at h
    simp [nextPage, h]

theorem nextPage_spec_witness :
    (nextPage (sampleWorld "active" 2 12)).app.currentPage = 3 ∧
    (nextPage (sampleWorld "active" 2 12)).trace =
      [.apiCall (some "/vouchers/") "GET" .empty] ∧
    nextPage (sampleWorld "active" 3 12) = sampleWorld "active" 3 12 := by
  have h2 := (nextPage_spec (sampleWorld "active" 2 12) rfl).1
    (by rw [Int.lt_ceil]; norm_num [sampleWorld])
  have h3 := (nextPage_spec (sampleWorld "active" 3 12) rfl).2
    (by rw [Int.lt_ceil]; norm_num [sampleWorld])
  refine ⟨?_, ?_, h3⟩
  · rw [h2.1]
    rfl
  · rw [h2.2.2]
    rfl

/-- C4: `previousPage()` sets `currentPage` to `p - 1` and issues the reload
when `p > 1`; at `p = 1` it changes nothing and issues nothing; from a page
`p >= 1` it never produces a page below 1. -/
theorem previousPage_spec (w : World) :
    (1 < w.app.currentPage →
      (previousPage w).app = { w.app with currentPage := w.app.currentPage - 1 } ∧
      (previousPage w).dom = w.dom ∧
      (previousPage w).trace =
        w.trace ++ [.apiCall (endpointFor w.app.currentTab) "GET" .empty]) ∧
    (w.app.currentPage = 1 → previousPage w = w) ∧
    (1 ≤ w.app.currentPage → 1 ≤ (previousPage w).app.currentPage) := by
  refine ⟨?_, ?_, ?_⟩
  · intro h
    simp [previousPage, h]
  · intro h
    simp [previousPage, h]
  · intro h
    unfold previousPage
    split
    · simp only [loadVouchersStart_app]
      omega
    · exact h

theorem previousPage_spec_witness :
    (previousPage (sampleWorld "disabled" 3 12)).app.currentPage = 2 ∧
    (previousPage (sampleWorld "disabled" 3 12)).trace =
      [.apiCall (some "/vouchers/disabled/") "GET" .empty] ∧
    previousPage (sampleWorld "disabled" 1 12) = sampleWorld "disabled" 1 12 ∧
    1 ≤ (previousPage (sampleWorld "disabled" 1 12)).app.currentPage := by
  have h3 := (previousPage_spec (sampleWorld "disabled" 3 12)).1 (by decide)
  have h1 := previousPage_spec (sampleWorld "disabled" 1 12)
  refine ⟨?_, ?_, h1.2.1 rfl, h1.2.2 (by decide)⟩
  · rw [h3.1]
    rfl
  · rw [h3.2.2]
    rfl

/-! ## The page-number loop -/

theorem ceil_div_five (a : Int) : ⌈(a : ℚ) / 5⌉ = (a + 4) / 5 := by
  have h := mathCeilDiv_eq_ceil a 5 (by decide)
  rw [mathCeilDiv_five] at h
  rw [h]
  norm_num

theorem mem_pageNumberLoop (fuel : Nat) (i endPage n : Int) :
    n ∈ pageNumberLoop fuel i endPage ↔ i ≤ n ∧ n ≤ endPage ∧ n < i + fuel := by
  induction fuel generalizing i with
  | zero =>
    simp only [pageNumberLoop, List.not_mem_nil, false_iff]
    omega
  | succ k ih =>
    unfold pageNumberLoop
    split
    · rw [List.mem_cons, ih]
      omega
    · simp only [List.not_mem_nil, false_iff]
      omega

theorem length_pageNumberLoop (fuel : Nat) (i endPage : Int) :
    (pageNumberLoop fuel i endPage).length = min fuel (endPage + 1 - i).toNat := by
  induction fuel generalizing i with
  | zero => simp [pageNumberLoop]
  | succ k ih =>
    unfold pageNumberLoop
    split
    · rw [List.length_cons, ih]
      omega
    · simp only [List.length_nil]
      omega

theorem pairwise_pageNumberLoop (fuel : Nat) (i endPage : Int) :
    (pageNumberLoop fuel i endPage).Pairwise (· < ·) := by
  induction fuel generalizing i with
  | zero => simp [pageNumberLoop]
  | succ k ih =>
    unfold pageNumberLoop
    split
    · rw [List.pairwise_cons]
      refine ⟨?_, ih _⟩
      intro n hn
      rw [mem_pageNumberLoop] at hn
      omega
    · exact List.Pairwise.nil

/-- The loop is left through its condition, never through the iteration
bound: it visits every integer from `startPage` to `endPage`. -/
theorem mem_pageNumberRange (startPage endPage n : Int) :
    n ∈ pageNumberRange startPage endPage ↔ startPage ≤ n ∧ n ≤ endPage := by
  unfold pageNumberRange
  rw [mem_pageNumberLoop]
  omega

theorem length_pageNumberRange (startPage endPage : Int) :
    (pageNumberRange startPage endPage).length = (endPage + 1 - startPage).toNat := by
  unfold pageNumberRange
  rw [length_pageNumberLoop]
  omega

theorem paginationView_shown (app : VoucherApp) (pg : Pagination)
    (h : app.itemsPerPage < app.totalItems) :
    (paginationView app pg).display = "flex" ∧
    (paginationView app pg).info =
      paginationInfoText ((app.currentPage - 1) * app.itemsPerPage + 1)
        (min (app.currentPage * app.itemsPerPage) app.totalItems) app.totalItems ∧
    (paginationView app pg).pageNumbers.map (fun b => b.page) =
      pageNumberRange (max 1 (app.currentPage - 2))
        (min (mathCeilDiv app.totalItems app.itemsPerPage) (max 1 (app.currentPage - 2) + 4)) := by
  unfold paginationView
  rw [if_neg (not_le.mpr h)]
  refine ⟨rfl, rfl, ?_⟩
  simp [List.map_map, Function.comp_def]

/-! ## Pagination claims -/

/-- C5: for `totalItems > 5`, the page-number buttons `updatePagination`
generates are exactly the integers from `startPage = max(1, p - 2)` to
`endPage = min(totalPages, startPage + 4)` in increasing order, where
`totalPages = ceil(totalItems / 5) = (totalItems + 4) div 5`; there are at
most five, and every one lies in `[1, totalPages]` and is the page its
`goToPage` handler moves to. -/
theorem updatePagination_pageNumbers (w : World) (pg : Pagination)
    (hsize : w.app.itemsPerPage = 5) (hN : 5 < w.app.totalItems)
    (hdom : w.dom.paginationContainer = some pg) :
    ∃ pg', (updatePagination w).dom.paginationContainer = some pg' ∧
      ⌈(w.app.totalItems : ℚ) / 5⌉ = (w.app.totalItems + 4) / 5 ∧
      (∀ n : Int, n ∈ pg'.pageNumbers.map (fun b => b.page) ↔
        max 1 (w.app.currentPage - 2) ≤ n ∧
        n ≤ min ⌈(w.app.totalItems : ℚ) / 5⌉ (max 1 (w.app.currentPage - 2) + 4)) ∧
      (pg'.pageNumbers.map (fun b => b.page)).Pairwise (· < ·) ∧
      pg'.pageNumbers.length ≤ 5 ∧
      ∀ b ∈ pg'.pageNumbers, 1 ≤ b.page ∧ b.page ≤ ⌈(w.app.totalItems : ℚ) / 5⌉ ∧
        (goToPage (updatePagination w) b.page).app.currentPage = b.page := by
  have hc : mathCeilDiv w.app.totalItems w.app.itemsPerPage = ⌈(w.app.totalItems : ℚ) / 5⌉ := by
    rw [hsize, mathCeilDiv_five, ceil_div_five]
  have hview := paginationView_shown w.app pg (by omega)
  rw [hc] at hview
  refine ⟨paginationView w.app pg, ?_, ceil_div_five _, ?_, ?_, ?_, ?_⟩
  · rw [updatePagination_paginationContainer, hdom]
    rfl
  · intro n
    rw [hview.2.2, mem_pageNumberRange]
  · rw [hview.2.2]
    exact pairwise_pageNumberLoop _ _ _
  · have hl := congrArg List.length hview.2.2
    rw [List.length_map, length_pageNumberRange] at hl
    omega
  · intro b hb
    have hm : b.page ∈ (paginationView w.app pg).pageNumbers.map (fun b => b.page) :=
      List.mem_map_of_mem _ hb
    rw [hview.2.2, mem_pageNumberRange] at hm
    exact ⟨by omega, by omega, rfl⟩

theorem updatePagination_pageNumbers_witness :
    ∃ pg', (updatePagination (sampleWorld "active" 4 33)).dom.paginationContainer = some pg' ∧
      ⌈(((sampleWorld "active" 4 33).app.totalItems : Int) : ℚ) / 5⌉ = (33 + 4) / 5 ∧
      (∀ n : Int, n ∈ pg'.pageNumbers.map (fun b => b.page) ↔
        max 1 ((4 : Int) - 2) ≤ n ∧
        n ≤ min ⌈(((sampleWorld "active" 4 33).app.totalItems : Int) : ℚ) / 5⌉
          (max 1 ((4 : Int) - 2) + 4)) ∧
      (pg'.pageNumbers.map (fun b => b.page)).Pairwise (· < ·) ∧
      pg'.pageNumbers.length ≤ 5 ∧
      ∀ b ∈ pg'.pageNumbers, 1 ≤ b.page ∧
        b.page ≤ ⌈(((sampleWorld "active" 4 33).app.totalItems : Int) : ℚ) / 5⌉ ∧
        (goToPage (updatePagination (sampleWorld "active" 4 33)) b.page).app.currentPage =
          b.page :=
  updatePagination_pageNumbers (sampleWorld "active" 4 33) _ rfl (by decide) rfl

/-- C6: with the pagination container present and a page size of 5,
`updatePagination` hides the controls exactly when `totalItems <= 5`, and
shows them (display `flex`) when `totalItems > 5`. -/
theorem updatePagination_hidden_iff (w : World) (pg : Pagination)
    (hsize : w.app.itemsPerPage = 5) (hdom : w.dom.paginationContainer = some pg) :
    ∃ pg', (updatePagination w).dom.paginationContainer = some pg' ∧
      (pg'.display = "none" ↔ w.app.totalItems ≤ 5) ∧
      (5 < w.app.totalItems → pg'.display = "flex") := by
  refine ⟨paginationView w.app pg, ?_, ?_, ?_⟩
  · rw [updatePagination_paginationContainer, hdom]
    rfl
  · by_cases h : w.app.totalItems ≤ 5
    · simp [paginationView, hsize, h]
    · simp [paginationView, hsize, h]
  · intro h
    exact (paginationView_shown w.app pg (by omega)).1

theorem updatePagination_hidden_iff_witness :
    (∃ pg', (updatePagination (sampleWorld "active" 1 5)).dom.paginationContainer = some pg' ∧
      pg'.display = "none") ∧
    (∃ pg', (updatePagination (sampleWorld "active" 1 6)).dom.paginationContainer = some pg' ∧
      pg'.display = "flex") := by
  obtain ⟨a, ha, hnone, -⟩ := updatePagination_hidden_iff (sampleWorld "active" 1 5) _ rfl rfl
  obtain ⟨b, hb, -, hflex⟩ := updatePagination_hidden_iff (sampleWorld "active" 1 6) _ rfl rfl
  exact ⟨⟨a, ha, hnone.mpr (by decide)⟩, ⟨b, hb, hflex (by decide)⟩⟩

/-! ## Loading a page -/

/-- C2: for a list response whose `N > 5` items come with `totalCount = N`
(raw, or an envelope with `count = N`) and a page `p` with
`1 <= p <= ceil(N / 5)`, `loadVouchers` shows exactly the items at 0-based
positions `[(p-1)*5, min(p*5, N))` in their original order, the pagination
info reads "Showing (p-1)*5+1-min(p*5,N) of N vouchers", and the number of
rows shown is `endItem - startItem + 1`. -/
theorem loadVouchers_page_window (w : World) (items : List Voucher) (response : ListResponse)
    (stats : Except String Statistics)
    (hsize : w.app.itemsPerPage = 5)
    (hv : w.dom.vouchersContainer ≠ none) (hpg : w.dom.paginationContainer ≠ none)
    (hresp : response = .raw items ∨ response = .envelope items items.length)
    (hN : 5 < items.length)
    (hp1 : 1 ≤ w.app.currentPage)
    (hp2 : w.app.currentPage ≤ ⌈((items.length : Int) : ℚ) / 5⌉) :
    displayedRows (loadVouchers w (.ok response) stats) =
      ((items.drop ((w.app.currentPage - 1) * 5).toNat).take
        ((min (w.app.currentPage * 5) items.length).toNat -
          ((w.app.currentPage - 1) * 5).toNat)).map (voucherRow w.app.currentTab) ∧
    (∀ k : Nat, k < (min (w.app.currentPage * 5) items.length).toNat -
          ((w.app.currentPage - 1) * 5).toNat →
      (displayedRows (loadVouchers w (.ok response) stats))[k]? =
        (items[((w.app.currentPage - 1) * 5).toNat + k]?).map (voucherRow w.app.currentTab)) ∧
    (∃ pg, (loadVouchers w (.ok response) stats).dom.paginationContainer = some pg ∧
      pg.display = "flex" ∧
      pg.info = "Showing " ++ toString ((w.app.currentPage - 1) * 5 + 1) ++ "-" ++
        toString (min (w.app.currentPage * 5) (items.length : Int)) ++ " of " ++
        toString (items.length : Int) ++ " vouchers") ∧
    ((displayedRows (loadVouchers w (.ok response) stats)).length : Int) =
      min (w.app.currentPage * 5) (items.length : Int) - ((w.app.currentPage - 1) * 5 + 1) + 1 := by
  rw [ceil_div_five] at hp2
  have hitems : response.vouchers = items := by
    rcases hresp with rfl | rfl <;> rfl
  have htotal : response.totalItems = items.length := by
    rcases hresp with rfl | rfl
    · rfl
    · have hne : ((items.length : Nat) : Int) ≠ 0 := by omega
      simp [ListResponse.totalItems, hne]
  have hrows : displayedRows (loadVouchers w (.ok response) stats) =
      ((items.drop ((w.app.currentPage - 1) * 5).toNat).take
        ((min (w.app.currentPage * 5) items.length).toNat -
          ((w.app.currentPage - 1) * 5).toNat)).map (voucherRow w.app.currentTab) := by
    apply displayedRows_vouchersView
    unfold loadVouchers
    rw [(loadVouchersResume_ok _ response stats).2.1]
    have hs : jsSlice items ((w.app.currentPage - 1) * 5) ((w.app.currentPage - 1) * 5 + 5) =
        (items.drop ((w.app.currentPage - 1) * 5).toNat).take 5 :=
      jsSlice_of_nonneg items ((w.app.currentPage - 1) * 5) 5 (by omega) (by decide)
    have ht : (items.drop ((w.app.currentPage - 1) * 5).toNat).take 5 =
        (items.drop ((w.app.currentPage - 1) * 5).toNat).take
          ((min (w.app.currentPage * 5) items.length).toNat -
            ((w.app.currentPage - 1) * 5).toNat) := by
      rw [List.take_eq_take, List.length_drop]
      omega
    cases hvc : w.dom.vouchersContainer with
    | none => exact absurd hvc hv
    | some view => simp [hvc, hsize, hitems, hs, ht]
  refine ⟨hrows, ?_, ?_, ?_⟩
  · intro k hk
    rw [hrows, List.getElem?_map, List.getElem?_take_of_lt hk, List.getElem?_drop]
  · cases hpc : w.dom.paginationContainer with
    | none => exact absurd hpc hpg
    | some pg =>
      refine ⟨paginationView { w.app with totalItems := items.length } pg, ?_, ?_, ?_⟩
      · unfold loadVouchers
        rw [(loadVouchersResume_ok _ response stats).2.2]
        simp [hpc, htotal]
      · exact (paginationView_shown _ pg (by simp only [hsize]; omega)).1
      · rw [(paginationView_shown _ pg (by simp only [hsize]; omega)).2.1]
        simp only [hsize]
        rfl
  · rw [hrows, List.length_map, List.length_take, List.length_drop]
    omega

theorem loadVouchers_page_window_witness :
    displayedRows (loadVouchers (sampleWorld "active" 2 0)
        (.ok (.envelope (sampleVouchers 12) 12)) (.error "offline")) =
      [sampleVoucher 6, sampleVoucher 7, sampleVoucher 8, sampleVoucher 9,
        sampleVoucher 10].map (voucherRow "active") ∧
    ∃ pg, (loadVouchers (sampleWorld "active" 2 0)
        (.ok (.envelope (sampleVouchers 12) 12)) (.error "offline")).dom.paginationContainer =
          some pg ∧
      pg.display = "flex" ∧ pg.info = "Showing 6-10 of 12 vouchers" := by
  have h := loadVouchers_page_window (sampleWorld "active" 2 0) (sampleVouchers 12)
    (.envelope (sampleVouchers 12) 12) (.error "offline") rfl
    (by simp [sampleWorld, sampleDocument]) (by simp [sampleWorld, sampleDocument])
    (Or.inr rfl) (by decide) (by decide)
    (by rw [ceil_div_five]; decide)
  obtain ⟨hrows, -, ⟨pg, hpg, hdisp, hinfo⟩, -⟩ := h
  refine ⟨?_, pg, hpg, hdisp, ?_⟩
  · rw [hrows]
    rfl
  · rw [hinfo]
    rfl

/-! ## Response shapes -/

/-- The count cached by a settled list request, by response shape. -/
theorem loadVouchers_totalItems (w : World) (response : ListResponse)
    (stats : Except String Statistics) :
    (loadVouchers w (.ok response) stats).app.totalItems = response.totalItems ∧
    (∀ items, response = .raw items → response.totalItems = items.length ∧
      response.vouchers = items) ∧
    (∀ results count, response = .envelope results count →
      response.vouchers = results ∧
      (count ≠ 0 → response.totalItems = count) ∧
      (count = 0 → response.totalItems = results.length)) := by
  refine ⟨?_, ?_, ?_⟩
  · unfold loadVouchers
    rw [(loadVouchersResume_ok _ response stats).1]
  · rintro items rfl
    exact ⟨rfl, rfl⟩
  · rintro results count rfl
    refine ⟨rfl, ?_, ?_⟩
    · intro h
      simp [ListResponse.totalItems, h]
    · intro h
      simp [ListResponse.totalItems, h]

/-- C7: for the envelope with `results = [v1]` and `count = 0`, `loadVouchers`
caches `totalItems = 1` (the length of `results`), not the server-supplied
count `0`. -/
theorem loadVouchers_zero_count_envelope :
    (loadVouchers (sampleWorld "active" 1 0) (.ok (.envelope [sampleVoucher 1] 0))
      (.error "offline")).app.totalItems = 1 ∧
    (ListResponse.envelope [sampleVoucher 1] 0).vouchers = [sampleVoucher 1] ∧
    (loadVouchers (sampleWorld "active" 1 0) (.ok (.envelope [sampleVoucher 1] 0))
      (.error "offline")).app.totalItems ≠ 0 := by
  have h := (loadVouchers_totalItems (sampleWorld "active" 1 0)
    (.envelope [sampleVoucher 1] 0) (.error "offline")).1
  refine ⟨?_, rfl, ?_⟩
  · rw [h]
    rfl
  · rw [h]
    decide

/-! ## The spent column -/

/-! ### Rounding to a double -/

theorem roundHalfEven_bounds (r : ℚ) : ⌊r⌋ ≤ roundHalfEven r ∧ roundHalfEven r ≤ ⌊r⌋ + 1 := by
  unfold roundHalfEven
  split_ifs <;> omega

theorem roundHalfEven_intCast (k : Int) : roundHalfEven (k : ℚ) = k := by
  unfold roundHalfEven
  rw [Int.floor_intCast]
  norm_num

theorem roundHalfEven_mono {r s : ℚ} (h : r ≤ s) : roundHalfEven r ≤ roundHalfEven s := by
  have hfl : ⌊r⌋ ≤ ⌊s⌋ := Int.floor_mono h
  rcases lt_or_eq_of_le hfl with hlt | heq
  · have h1 := (roundHalfEven_bounds r).2
    have h2 := (roundHalfEven_bounds s).1
    omega
  · unfold roundHalfEven
    rw [← heq]
    have hs : r - ⌊r⌋ ≤ s - ⌊r⌋ := by linarith
    split_ifs <;> first | omega | (exfalso; linarith)

theorem roundHalfEven_of_close (r : ℚ) (k : Int) (h : |r - k| < 1 / 2) :
    roundHalfEven r = k := by
  rw [abs_lt] at h
  by_cases hk : (k : ℚ) ≤ r
  · have hf : ⌊r⌋ = k := by
      rw [Int.floor_eq_iff]
      constructor <;> linarith
    unfold roundHalfEven
    rw [hf, if_pos (by linarith)]
  · have hf : ⌊r⌋ = k - 1 := by
      rw [Int.floor_eq_iff]
      push_cast
      constructor <;> linarith
    unfold roundHalfEven
    rw [hf]
    push_cast
    rw [if_neg (by linarith), if_pos (by linarith)]
    ring

theorem roundHalfEven_nonneg {r : ℚ} (h : 0 ≤ r) : 0 ≤ roundHalfEven r := by
  have := roundHalfEven_mono h
  rwa [show (0 : ℚ) = ((0 : Int) : ℚ) by norm_num, roundHalfEven_intCast] at this

theorem roundHalfEven_nonpos {r : ℚ} (h : r ≤ 0) : roundHalfEven r ≤ 0 := by
  have := roundHalfEven_mono h
  rwa [show (0 : ℚ) = ((0 : Int) : ℚ) by norm_num, roundHalfEven_intCast] at this

theorem ulp_pos (x : ℚ) : 0 < ulp x := by
  unfold ulp
  positivity

theorem roundFinite_zero : roundFinite 0 = 0 := by
  unfold roundFinite
  rw [zero_div, show (0 : ℚ) = ((0 : Int) : ℚ) by norm_num, roundHalfEven_intCast]
  simp

theorem roundFinite_nonneg {x : ℚ} (h : 0 ≤ x) : 0 ≤ roundFinite x := by
  unfold roundFinite
  have h1 : 0 ≤ roundHalfEven (x / ulp x) := roundHalfEven_nonneg (div_nonneg h (ulp_pos x).le)
  have h2 : (0 : ℚ) ≤ (roundHalfEven (x / ulp x) : ℚ) := by exact_mod_cast h1
  exact mul_nonneg h2 (ulp_pos x).le

theorem roundFinite_nonpos {x : ℚ} (h : x ≤ 0) : roundFinite x ≤ 0 := by
  unfold roundFinite
  have h1 : roundHalfEven (x / ulp x) ≤ 0 :=
    roundHalfEven_nonpos (div_nonpos_of_nonpos_of_nonneg h (ulp_pos x).le)
  have h2 : (roundHalfEven (x / ulp x) : ℚ) ≤ 0 := by exact_mod_cast h1
  exact mul_nonpos_of_nonpos_of_nonneg h2 (ulp_pos x).le

theorem abs_lt_zpow_binade (x : ℚ) : |x| < (2 : ℚ) ^ (binade x + 1) := by
  have h1 : |x| < ((2 : ℕ) : ℚ) ^ (Int.log 2 |x| + 1) := Int.lt_zpow_succ_log_self (by decide) _
  have h2 : (2 : ℚ) ^ (Int.log 2 |x| + 1) ≤ (2 : ℚ) ^ (binade x + 1) := by
    apply zpow_le_zpow_right₀ (by norm_num)
    unfold binade
    have := le_max_left (Int.log 2 |x|) (-1022)
    omega
  rw [Nat.cast_ofNat] at h1
  exact lt_of_lt_of_le h1 h2

theorem zpow_binade_le {x : ℚ} (hx : x ≠ 0) (hb : -1022 < binade x) :
    (2 : ℚ) ^ binade x ≤ |x| := by
  have hlog : binade x = Int.log 2 |x| := by
    unfold binade at hb ⊢
    rcases max_cases (Int.log 2 |x|) (-1022) with ⟨h, _⟩ | ⟨h, _⟩
    · exact h
    · omega
  have h1 : ((2 : ℕ) : ℚ) ^ Int.log 2 |x| ≤ |x| :=
    Int.zpow_log_le_self (by decide) (abs_pos.mpr hx)
  rw [Nat.cast_ofNat] at h1
  rw [hlog]
  exact h1

theorem binade_mono {x y : ℚ} (hx : x ≠ 0) (h : |x| ≤ |y|) : binade x ≤ binade y := by
  unfold binade
  exact max_le_max (Int.log_mono_right (abs_pos.mpr hx) h) (le_refl _)

theorem two_pow_mul_ulp (x : ℚ) (n : Nat) :
    (((2 : Int) ^ n : Int) : ℚ) * ulp x = (2 : ℚ) ^ (binade x - 52 + n) := by
  unfold ulp
  rw [zpow_add₀ (by norm_num : (2 : ℚ) ≠ 0), zpow_natCast]
  push_cast
  ring

theorem roundFinite_le_of_le (x : ℚ) (k : Int) (h : x ≤ k * ulp x) :
    roundFinite x ≤ k * ulp x := by
  unfold roundFinite
  have h1 : x / ulp x ≤ (k : ℚ) := by
    rw [div_le_iff₀ (ulp_pos x)]
    exact h
  have h2 := roundHalfEven_mono h1
  rw [roundHalfEven_intCast] at h2
  have h3 : (roundHalfEven (x / ulp x) : ℚ) ≤ (k : ℚ) := by exact_mod_cast h2
  exact mul_le_mul_of_nonneg_right h3 (ulp_pos x).le

theorem le_roundFinite_of_le (x : ℚ) (k : Int) (h : k * ulp x ≤ x) :
    k * ulp x ≤ roundFinite x := by
  unfold roundFinite
  have h1 : (k : ℚ) ≤ x / ulp x := by
    rw [le_div_iff₀ (ulp_pos x)]
    exact h
  have h2 := roundHalfEven_mono h1
  rw [roundHalfEven_intCast] at h2
  have h3 : (k : ℚ) ≤ (roundHalfEven (x / ulp x) : ℚ) := by exact_mod_cast h2
  exact mul_le_mul_of_nonneg_right h3 (ulp_pos x).le

/-- Rounding never leaves the binade: the result is at most the upper end. -/
theorem roundFinite_le_top (x : ℚ) : roundFinite x ≤ (2 : ℚ) ^ (binade x + 1) := by
  have h := roundFinite_le_of_le x ((2 : Int) ^ 53) (by
    rw [two_pow_mul_ulp]
    have := abs_lt_zpow_binade x
    have hx := le_abs_self x
    rw [show binade x - 52 + ((53 : Nat) : Int) = binade x + 1 by push_cast; ring]
    linarith)
  rw [two_pow_mul_ulp, show binade x - 52 + ((53 : Nat) : Int) = binade x + 1 by
    push_cast; ring] at h
  exact h

theorem neg_top_le_roundFinite (x : ℚ) : -(2 : ℚ) ^ (binade x + 1) ≤ roundFinite x := by
  have h := le_roundFinite_of_le x (-((2 : Int) ^ 53)) (by
    rw [Int.cast_neg, neg_mul, two_pow_mul_ulp]
    have := abs_lt_zpow_binade x
    have hx := neg_abs_le x
    rw [show binade x - 52 + ((53 : Nat) : Int) = binade x + 1 by push_cast; ring]
    linarith)
  rw [Int.cast_neg, neg_mul, two_pow_mul_ulp,
    show binade x - 52 + ((53 : Nat) : Int) = binade x + 1 by push_cast; ring] at h
  exact h

theorem bottom_le_roundFinite {x : ℚ} (hx : 0 < x) (hb : -1022 < binade x) :
    (2 : ℚ) ^ binade x ≤ roundFinite x := by
  have hle := zpow_binade_le hx.ne' hb
  rw [abs_of_pos hx] at hle
  have h := le_roundFinite_of_le x ((2 : Int) ^ 52) (by
    rw [two_pow_mul_ulp, show binade x - 52 + ((52 : Nat) : Int) = binade x by push_cast; ring]
    exact hle)
  rw [two_pow_mul_ulp, show binade x - 52 + ((52 : Nat) : Int) = binade x by
    push_cast; ring] at h
  exact h

theorem roundFinite_le_neg_bottom {x : ℚ} (hx : x < 0) (hb : -1022 < binade x) :
    roundFinite x ≤ -(2 : ℚ) ^ binade x := by
  have hle := zpow_binade_le hx.ne hb
  rw [abs_of_neg hx] at hle
  have h := roundFinite_le_of_le x (-((2 : Int) ^ 52)) (by
    rw [Int.cast_neg, neg_mul, two_pow_mul_ulp,
      show binade x - 52 + ((52 : Nat) : Int) = binade x by push_cast; ring]
    linarith)
  rw [Int.cast_neg, neg_mul, two_pow_mul_ulp,
    show binade x - 52 + ((52 : Nat) : Int) = binade x by push_cast; ring] at h
  exact h

theorem roundFinite_mono_same {x y : ℚ} (h : x ≤ y) (hb : binade x = binade y) :
    roundFinite x ≤ roundFinite y := by
  have hu : ulp x = ulp y := by
    unfold ulp
    rw [hb]
  unfold roundFinite
  rw [hu]
  have h1 : x / ulp y ≤ y / ulp y := div_le_div_of_nonneg_right h (ulp_pos y).le
  have h2 := roundHalfEven_mono h1
  have h3 : (roundHalfEven (x / ulp y) : ℚ) ≤ (roundHalfEven (y / ulp y) : ℚ) := by
    exact_mod_cast h2
  exact mul_le_mul_of_nonneg_right h3 (ulp_pos y).le

/-- Rounding to the nearest double is monotone. -/
theorem roundFinite_mono {x y : ℚ} (h : x ≤ y) : roundFinite x ≤ roundFinite y := by
  rcases le_or_lt x 0 with hx | hx
  · rcases le_or_lt 0 y with hy | hy
    · exact le_trans (roundFinite_nonpos hx) (roundFinite_nonneg hy)
    · -- x ≤ y < 0
      have hxneg : x < 0 := lt_of_le_of_lt h hy
      have habs : |y| ≤ |x| := by
        rw [abs_of_neg hy, abs_of_neg hxneg]
        linarith
      have hbin := binade_mono hy.ne habs
      rcases lt_or_eq_of_le hbin with hlt | heq
      · have hbx : -1022 < binade x := by
          have : -1022 ≤ binade y := le_max_right _ _
          omega
        have h1 := roundFinite_le_neg_bottom hxneg hbx
        have h2 := neg_top_le_roundFinite y
        have h3 : (2 : ℚ) ^ (binade y + 1) ≤ (2 : ℚ) ^ binade x :=
          zpow_le_zpow_right₀ (by norm_num) (by omega)
        linarith
      · exact roundFinite_mono_same h heq.symm
  · have hy : 0 < y := lt_of_lt_of_le hx h
    have habs : |x| ≤ |y| := by
      rw [abs_of_pos hx, abs_of_pos hy]
      exact h
    have hbin := binade_mono hx.ne' habs
    rcases lt_or_eq_of_le hbin with hlt | heq
    · have hby : -1022 < binade y := by
        have : -1022 ≤ binade x := le_max_right _ _
        omega
      have h1 := roundFinite_le_top x
      have h2 := bottom_le_roundFinite hy hby
      have h3 : (2 : ℚ) ^ (binade x + 1) ≤ (2 : ℚ) ^ binade y :=
        zpow_le_zpow_right₀ (by norm_num) (by omega)
      linarith
    · exact roundFinite_mono_same h heq

theorem binade_eq_of_bounds {x : ℚ} {e : Int} (he : -1022 ≤ e) (h1 : (2 : ℚ) ^ e ≤ |x|)
    (h2 : |x| < (2 : ℚ) ^ (e + 1)) : binade x = e := by
  have hpos : 0 < |x| := lt_of_lt_of_le (by positivity) h1
  have hl1 : e ≤ Int.log 2 |x| := by
    rw [← Int.zpow_le_iff_le_log (by decide) hpos, Nat.cast_ofNat]
    exact h1
  have hl2 : Int.log 2 |x| < e + 1 := by
    rw [← Int.lt_zpow_iff_log_lt (by decide) hpos, Nat.cast_ofNat]
    exact h2
  unfold binade
  rw [max_eq_left (by omega)]
  omega

/-- Evaluation of the rounding: in the binade `[2^e, 2^(e+1))` the result is
the multiple of `2^(e-52)` whose integer factor is within one half. -/
theorem roundFinite_eq_of_close {x : ℚ} {e k : Int} (he : -1022 ≤ e) (h1 : (2 : ℚ) ^ e ≤ |x|)
    (h2 : |x| < (2 : ℚ) ^ (e + 1)) (hk : |x / (2 : ℚ) ^ (e - 52) - k| < 1 / 2) :
    roundFinite x = k * (2 : ℚ) ^ (e - 52) := by
  unfold roundFinite ulp
  rw [binade_eq_of_bounds he h1 h2, roundHalfEven_of_close _ k hk]

theorem roundFinite_of_multiple {x : ℚ} {k : Int} (h : x = k * ulp x) : roundFinite x = x := by
  unfold roundFinite
  have hk : x / ulp x = (k : ℚ) := by
    rw [div_eq_iff (ulp_pos x).ne']
    exact h
  rw [hk, roundHalfEven_intCast]
  exact h.symm

/-- Integers of magnitude at most `2^53` are doubles: rounding leaves them
unchanged. -/
theorem roundFinite_intCast (n : Int) (hn : |n| ≤ 2 ^ 53) : roundFinite (n : ℚ) = n := by
  by_cases h0 : n = 0
  · subst h0
    simpa using roundFinite_zero
  have habs1 : (1 : ℚ) ≤ |(n : ℚ)| := by
    have : (1 : Int) ≤ |n| := Int.one_le_abs h0
    exact_mod_cast this
  have habs2 : |(n : ℚ)| ≤ 2 ^ 53 := by exact_mod_cast hn
  have hpos : 0 < |(n : ℚ)| := by linarith
  have hl1 : 0 ≤ Int.log 2 |(n : ℚ)| := by
    rw [← Int.zpow_le_iff_le_log (by decide) hpos, Nat.cast_ofNat, zpow_zero]
    exact habs1
  have hl2 : Int.log 2 |(n : ℚ)| < 54 := by
    rw [← Int.lt_zpow_iff_log_lt (by decide) hpos, Nat.cast_ofNat]
    have : (2 : ℚ) ^ (53 : Nat) < (2 : ℚ) ^ (54 : Int) := by norm_num
    linarith
  have hb : binade (n : ℚ) = Int.log 2 |(n : ℚ)| := by
    unfold binade
    rw [max_eq_left (by omega)]
  have hlow : (2 : ℚ) ^ binade (n : ℚ) ≤ |(n : ℚ)| :=
    zpow_binade_le (by exact_mod_cast h0) (by omega)
  rcases lt_or_eq_of_le (show binade (n : ℚ) ≤ 53 by omega) with hlt | heq
  · -- the spacing is at most 1
    obtain ⟨m, hm⟩ : ∃ m : Nat, (m : Int) = 52 - binade (n : ℚ) :=
      ⟨(52 - binade (n : ℚ)).toNat, Int.toNat_of_nonneg (by omega)⟩
    apply roundFinite_of_multiple (k := n * 2 ^ m)
    unfold ulp
    push_cast
    rw [mul_assoc, ← zpow_natCast, ← zpow_add₀ (by norm_num : (2 : ℚ) ≠ 0), hm]
    simp
  · -- the magnitude is exactly 2^53 and the spacing is 2
    have habs : |(n : ℚ)| = 2 ^ 53 := by
      rw [heq] at hlow
      have : (2 : ℚ) ^ (53 : Int) = 2 ^ 53 := by norm_num
      rw [this] at hlow
      linarith
    have hu : ulp (n : ℚ) = 2 := by
      unfold ulp
      rw [heq]
      norm_num
    rcases abs_choice (n : ℚ) with hp | hp
    · apply roundFinite_of_multiple (k := 2 ^ 52)
      rw [hu, ← hp, habs]
      norm_num
    · apply roundFinite_of_multiple (k := -2 ^ 52)
      rw [hu]
      have : (n : ℚ) = -2 ^ 53 := by
        rw [hp] at habs
        linarith
      rw [this]
      norm_num

theorem overflowThreshold_gt : (2 : ℚ) ^ 53 < overflowThreshold := by
  unfold overflowThreshold
  norm_num

theorem roundDouble_of_lt {x : ℚ} (h : |x| < overflowThreshold) :
    roundDouble x = .finite (roundFinite x) := by
  unfold roundDouble
  rw [if_neg (not_le.mpr h)]

theorem roundDouble_zero : roundDouble 0 = .finite 0 := by
  rw [roundDouble_of_lt (by rw [abs_zero]; exact lt_trans (by norm_num) overflowThreshold_gt),
    roundFinite_zero]

theorem roundDouble_intCast (n : Int) (hn : |n| ≤ 2 ^ 53) : roundDouble (n : ℚ) = .finite n := by
  have habs : |(n : ℚ)| ≤ 2 ^ 53 := by exact_mod_cast hn
  rw [roundDouble_of_lt (lt_of_le_of_lt habs overflowThreshold_gt), roundFinite_intCast n hn]


/-! ### The spent cell -/

/-- C8, as stated, fails: for the amounts `0.1` and `0.3` the spent cell holds
the double `7205759403792793 / 2^55` (printed `0.19999999999999998`), not
`max(0, 0.3 - 0.1) = 0.2`; and for the balance literal `1e999`, which parses
to `Infinity`, the spent cell holds `NaN` although `total_loaded` is `0`. -/
theorem spent_of_decimal_amounts :
    (voucherRow "active" decimalVoucher).spent = .finite (7205759403792793 / 2 ^ 55) ∧
    (7205759403792793 / 2 ^ 55 : ℚ) ≠
      max 0 ((if decimalVoucher.total_loaded > 0 then decimalVoucher.total_loaded
        else decimalVoucher.current_balance) - decimalVoucher.current_balance) ∧
    hugeVoucher.total_loaded = 0 ∧
    (voucherRow "active" hugeVoucher).spent = .nan := by
  have h3 : toDouble (3 / 10) = .finite (5404319552844595 / 2 ^ 54) := by
    unfold toDouble
    rw [roundDouble_of_lt (by unfold overflowThreshold; norm_num [abs_of_pos]),
      roundFinite_eq_of_close (e := -2) (k := 5404319552844595) (by decide)
        (by norm_num [abs_of_pos]) (by norm_num [abs_of_pos]) (by norm_num [abs_lt])]
    norm_num
  have h1 : toDouble (1 / 10) = .finite (3602879701896397 / 2 ^ 55) := by
    unfold toDouble
    rw [roundDouble_of_lt (by unfold overflowThreshold; norm_num [abs_of_pos]),
      roundFinite_eq_of_close (e := -4) (k := 7205759403792794) (by decide)
        (by norm_num [abs_of_pos]) (by norm_num [abs_of_pos]) (by norm_num [abs_lt])]
    norm_num
  have hd : roundDouble (5404319552844595 / 2 ^ 54 - 3602879701896397 / 2 ^ 55) =
      .finite (7205759403792793 / 2 ^ 55) := by
    rw [roundDouble_of_lt (by unfold overflowThreshold; norm_num [abs_of_pos]),
      roundFinite_eq_of_close (e := -3) (k := 7205759403792793) (by decide)
        (by norm_num [abs_of_pos]) (by norm_num [abs_of_pos]) (by norm_num [abs_lt])]
    norm_num
  have hinf : toDouble (10 ^ 999) = .posInf := by
    unfold toDouble roundDouble
    rw [if_pos (by unfold overflowThreshold; norm_num [abs_of_pos]), if_pos (by norm_num)]
  have hzero : toDouble 0 = .finite 0 := roundDouble_zero
  refine ⟨?_, ?_, rfl, ?_⟩
  · have hg : (JsNumber.finite (5404319552844595 / 2 ^ 54)).gtZero = true := by
      norm_num [JsNumber.gtZero]
    show spentCell decimalVoucher = _
    unfold spentCell
    rw [show decimalVoucher.total_loaded = 3 / 10 from rfl,
      show decimalVoucher.current_balance = 1 / 10 from rfl, h3, h1, hg, if_pos rfl]
    show JsNumber.maxZero (roundDouble (5404319552844595 / 2 ^ 54 - 3602879701896397 / 2 ^ 55)) = _
    rw [hd]
    norm_num [JsNumber.maxZero]
  · norm_num [decimalVoucher]
  · show spentCell hugeVoucher = _
    unfold spentCell
    rw [show hugeVoucher.total_loaded = 0 from rfl,
      show hugeVoucher.current_balance = 10 ^ 999 from rfl, hinf, hzero]
    simp [JsNumber.gtZero, JsNumber.sub, JsNumber.maxZero]

theorem maxZero_roundDouble_of_nonpos {x : ℚ} (h : x ≤ 0) :
    (roundDouble x).maxZero = .finite 0 := by
  unfold roundDouble
  split
  · rw [if_neg (not_lt.mpr h)]
    rfl
  · show JsNumber.finite (max 0 (roundFinite x)) = _
    rw [max_eq_left (roundFinite_nonpos h)]

theorem spentCell_not_negative (v : Voucher) :
    spentCell v ≠ .negInf ∧ ∀ q, spentCell v = .finite q → 0 ≤ q := by
  unfold spentCell
  generalize JsNumber.sub _ _ = x
  cases x with
  | finite r =>
    refine ⟨by simp [JsNumber.maxZero], ?_⟩
    intro q hq
    simp only [JsNumber.maxZero, JsNumber.finite.injEq] at hq
    rw [← hq]
    exact le_max_left _ _
  | posInf => simp [JsNumber.maxZero]
  | negInf =>
    refine ⟨by simp [JsNumber.maxZero], ?_⟩
    intro q hq
    simp only [JsNumber.maxZero, JsNumber.finite.injEq] at hq
    rw [← hq]
  | nan => simp [JsNumber.maxZero]

theorem spentCell_of_not_gtZero (v : Voucher) (hfin : |v.current_balance| < overflowThreshold)
    (hg : (toDouble v.total_loaded).gtZero = false) : spentCell v = .finite 0 := by
  unfold spentCell
  rw [hg]
  simp only [Bool.false_eq_true, if_false]
  unfold toDouble
  rw [roundDouble_of_lt hfin]
  show JsNumber.maxZero (roundDouble (_ - _)) = _
  exact maxZero_roundDouble_of_nonpos (by rw [sub_self])

theorem spentCell_zero_of_loaded_zero (v : Voucher)
    (hfin : |v.current_balance| < overflowThreshold) (h0 : v.total_loaded = 0) :
    spentCell v = .finite 0 := by
  apply spentCell_of_not_gtZero v hfin
  rw [h0]
  unfold toDouble
  rw [roundDouble_zero]
  simp [JsNumber.gtZero]

theorem spentCell_zero_of_le (v : Voucher) (hfin : |v.current_balance| < overflowThreshold)
    (hle : v.total_loaded ≤ v.current_balance) : spentCell v = .finite 0 := by
  cases hg : (toDouble v.total_loaded).gtZero with
  | false => exact spentCell_of_not_gtZero v hfin hg
  | true =>
    by_cases hbig : overflowThreshold ≤ |v.total_loaded|
    · -- the loaded amount parses to an infinity, which is not above the balance
      exfalso
      unfold toDouble roundDouble at hg
      rw [if_pos hbig] at hg
      by_cases hpos : 0 < v.total_loaded
      · rw [abs_of_pos hpos] at hbig
        have := le_abs_self v.current_balance
        linarith
      · rw [if_neg hpos] at hg
        simp [JsNumber.gtZero] at hg
    · have hlt : |v.total_loaded| < overflowThreshold := not_le.mp hbig
      unfold spentCell
      rw [hg]
      simp only [if_true]
      unfold toDouble
      rw [roundDouble_of_lt hfin, roundDouble_of_lt hlt]
      show JsNumber.maxZero (roundDouble (_ - _)) = _
      exact maxZero_roundDouble_of_nonpos (sub_nonpos.mpr (roundFinite_mono hle))

theorem spentCell_of_integers (v : Voucher) (a b : Int)
    (ha : v.current_balance = a) (hb : v.total_loaded = b)
    (ha0 : 0 ≤ a) (ha1 : a ≤ 2 ^ 53) (hb0 : 0 ≤ b) (hb1 : b ≤ 2 ^ 53) :
    spentCell v = .finite (max 0 ((if v.total_loaded > 0 then v.total_loaded
      else v.current_balance) - v.current_balance)) := by
  have hda : toDouble (a : ℚ) = .finite a :=
    roundDouble_intCast a (by rw [abs_of_nonneg ha0]; exact ha1)
  have hdb : toDouble (b : ℚ) = .finite b :=
    roundDouble_intCast b (by rw [abs_of_nonneg hb0]; exact hb1)
  unfold spentCell
  rw [ha, hb, hda, hdb]
  by_cases hpos : 0 < b
  · have hq : (0 : ℚ) < (b : ℚ) := by exact_mod_cast hpos
    have hg : (JsNumber.finite (b : ℚ)).gtZero = true := by simp [JsNumber.gtZero, hq]
    rw [hg, if_pos rfl, if_pos hq]
    show JsNumber.maxZero (roundDouble ((b : ℚ) - (a : ℚ))) = _
    rw [show (b : ℚ) - (a : ℚ) = ((b - a : Int) : ℚ) by push_cast; ring,
      roundDouble_intCast (b - a) (by rw [abs_le]; constructor <;> omega)]
    rfl
  · have hq : ¬ (0 : ℚ) < (b : ℚ) := by exact_mod_cast hpos
    have hg : (JsNumber.finite (b : ℚ)).gtZero = false := by simp [JsNumber.gtZero, hq]
    rw [hg, if_neg hq]
    simp only [Bool.false_eq_true, if_false]
    show JsNumber.maxZero (roundDouble ((a : ℚ) - (a : ℚ))) = _
    rw [sub_self, roundDouble_zero]
    rfl

/-- C8, amended: every row `displayVouchers` renders shows, as spent amount,
`Math.max(0, e - c)` evaluated in double arithmetic on the parsed amounts,
where `c` is `current_balance` and `e` is `total_loaded` if that is `> 0` and
`c` otherwise.  The amount is never negative.  When `current_balance` parses
to a finite double it is exactly `0` whenever `total_loaded = 0` or
`total_loaded <= current_balance`.  For integer amounts from `0` to `2^53` it
equals the exact `max(0, effectiveTotalLoaded - currentBalance)`. -/
theorem displayVouchers_spent (w : World) (vouchers : List Voucher) (rows : List VoucherRow)
    (h : (displayVouchers w vouchers).dom.vouchersContainer = some (.table rows)) :
    rows = vouchers.map (voucherRow w.app.currentTab) ∧
    ∀ v ∈ vouchers,
      (voucherRow w.app.currentTab v).spent =
        JsNumber.maxZero (JsNumber.sub
          (if (toDouble v.total_loaded).gtZero then toDouble v.total_loaded
            else toDouble v.current_balance)
          (toDouble v.current_balance)) ∧
      (voucherRow w.app.currentTab v).spent ≠ .negInf ∧
      (∀ q, (voucherRow w.app.currentTab v).spent = .finite q → 0 ≤ q) ∧
      (|v.current_balance| < overflowThreshold →
        (v.total_loaded = 0 → (voucherRow w.app.currentTab v).spent = .finite 0) ∧
        (v.total_loaded ≤ v.current_balance →
          (voucherRow w.app.currentTab v).spent = .finite 0)) ∧
      (∀ a b : Int, v.current_balance = a → v.total_loaded = b →
        0 ≤ a → a ≤ 2 ^ 53 → 0 ≤ b → b ≤ 2 ^ 53 →
        (voucherRow w.app.currentTab v).spent =
          .finite (max 0 ((if v.total_loaded > 0 then v.total_loaded
            else v.current_balance) - v.current_balance))) := by
  constructor
  · rw [displayVouchers_vouchersContainer] at h
    cases hv : w.dom.vouchersContainer with
    | none => simp [hv] at h
    | some view =>
      rw [hv] at h
      simp only [Option.map_some', Option.some.injEq] at h
      unfold vouchersView at h
      split at h
      · cases h
      · cases h
        rfl
  · intro v _
    refine ⟨rfl, (spentCell_not_negative v).1, (spentCell_not_negative v).2, ?_, ?_⟩
    · intro hfin
      exact ⟨spentCell_zero_of_loaded_zero v hfin, spentCell_zero_of_le v hfin⟩
    · intro a b ha hb ha0 ha1 hb0 hb1
      exact spentCell_of_integers v a b ha hb ha0 ha1 hb0 hb1

theorem displayVouchers_spent_witness :
    (voucherRow "active" (sampleVoucher 1)).spent = .finite 0 ∧
    (voucherRow "active" spentVoucher).spent = .finite 50 := by
  have h := displayVouchers_spent (sampleWorld "active" 1 0) [sampleVoucher 1, spentVoucher]
    [voucherRow "active" (sampleVoucher 1), voucherRow "active" spentVoucher] rfl
  have h1 := h.2 (sampleVoucher 1) (List.mem_cons_self _ _)
  have h2 := h.2 spentVoucher (List.mem_cons_of_mem _ (List.mem_singleton.mpr rfl))
  rw [show (sampleWorld "active" 1 0).app.currentTab = "active" from rfl] at h1 h2
  refine ⟨?_, ?_⟩
  · exact (h1.2.2.2.1 (by
      unfold overflowThreshold
      norm_num [sampleVoucher, abs_of_pos])).1 rfl
  · rw [h2.2.2.2.2 100 150 (by norm_num [spentVoucher]) (by norm_num [spentVoucher])
      (by decide) (by decide) (by decide) (by decide)]
    norm_num [spentVoucher]

/-! ## Bulk creation -/

theorem successesFrom_le (transport : Nat → Except String Unit) (k n : Nat) :
    successesFrom transport k n ≤ n := by
  induction n generalizing k with
  | zero => simp [successesFrom]
  | succ m ih =>
    unfold successesFrom
    have := ih (k + 1)
    split <;> omega

theorem successesFrom_eq_countP (transport : Nat → Except String Unit) (k n : Nat) :
    successesFrom transport k n =
      (List.range' k n).countP (fun i => succeeded (transport i)) := by
  induction n generalizing k with
  | zero => simp [successesFrom]
  | succ m ih =>
    unfold successesFrom
    rw [List.range'_succ, List.countP_cons, ih (k + 1)]
    omega

/-- The loop runs all its iterations: started at index `k` with `n`
iterations left below `count`, it makes the calls of `bulkSegment` and adds
the successes and failures among them to the counters. -/
theorem bulkCreateLoop_eq (amount : ℚ) (count : Int) (transport : Nat → Except String Unit)
    (n k : Nat) (acc : BulkResult) (h : (k : Int) + n ≤ count) :
    bulkCreateLoop amount count transport n k acc =
      { world := { acc.world with
          trace := acc.world.trace ++ bulkSegment amount transport k n }
        successCount := acc.successCount + (successesFrom transport k n : Nat)
        errorCount := acc.errorCount + ((n : Int) - (successesFrom transport k n : Nat)) } := by
  induction n generalizing k acc with
  | zero =>
    obtain ⟨⟨app, dom, trace⟩, s, e⟩ := acc
    simp [bulkCreateLoop, bulkSegment, successesFrom]
  | succ m ih =>
    have hlt : (k : Int) < count := by omega
    have hk : ((k : Int) + 1) = ((k + 1 : Nat) : Int) := by push_cast; rfl
    unfold bulkCreateLoop
    rw [if_pos hlt, hk]
    simp only [Int.toNat_ofNat]
    cases ht : transport k with
    | ok u =>
      simp only []
      rw [ih (k + 1) _ (by push_cast; omega)]
      simp only [bulkSegment, successesFrom, succeeded, ht, List.append_assoc]
      congr 1 <;> first | omega | (push_cast; omega)
    | error message =>
      simp only []
      rw [ih (k + 1) _ (by push_cast; omega)]
      simp only [bulkSegment, successesFrom, succeeded, ht, List.append_assoc]
      congr 1 <;> first | omega | (push_cast; omega)

theorem countP_isCreateCall_bulkSegment (amount : ℚ) (transport : Nat → Except String Unit)
    (k n : Nat) :
    (bulkSegment amount transport k n).countP (isCreateCall amount) = n := by
  induction n generalizing k with
  | zero => simp [bulkSegment]
  | succ m ih =>
    unfold bulkSegment
    rw [List.countP_append, ih (k + 1)]
    cases transport k <;> simp [isCreateCall] <;> omega

theorem not_isReloadOf_bulkSegment (tab : String) (amount : ℚ)
    (transport : Nat → Except String Unit) (k n : Nat) :
    ∀ e ∈ bulkSegment amount transport k n, isReloadOf tab e = false := by
  induction n generalizing k with
  | zero => simp [bulkSegment]
  | succ m ih =>
    intro e he
    unfold bulkSegment at he
    rw [List.mem_append] at he
    rcases he with he | he
    · cases ht : transport k <;> simp [ht] at he <;> rcases he with rfl | rfl <;>
        simp [isReloadOf]
    · exact ih (k + 1) e he

/-- The handler in closed form: the counters and the calls it makes. -/
theorem handleBulkVoucherCreate_eq (w : World) (amount : ℚ) (count : Int)
    (transport : Nat → Except String Unit) (hcount : 0 ≤ count) :
    (handleBulkVoucherCreate w amount count transport).successCount =
      (successesFrom transport 0 count.toNat : Nat) ∧
    (handleBulkVoucherCreate w amount count transport).errorCount =
      count - (successesFrom transport 0 count.toNat : Nat) ∧
    (handleBulkVoucherCreate w amount count transport).world.app = w.app ∧
    (handleBulkVoucherCreate w amount count transport).world.trace =
      w.trace ++ (bulkSegment amount transport 0 count.toNat ++
        ((if 0 < successesFrom transport 0 count.toNat then
            [Effect.showSuccess (.bulkCreated (successesFrom transport 0 count.toNat : Nat) amount),
              Effect.apiCall (endpointFor w.app.currentTab) "GET" .empty]
          else []) ++
        (if (successesFrom transport 0 count.toNat : Int) < count then
            [Effect.showError
              (.bulkFailed (count - (successesFrom transport 0 count.toNat : Nat)))]
          else []))) := by
  have hloop := bulkCreateLoop_eq amount count transport count.toNat 0
    { world := w, successCount := 0, errorCount := 0 } (by omega)
  simp only [Nat.cast_zero, zero_add] at hloop
  have hn : ((count.toNat : Nat) : Int) = count := Int.toNat_of_nonneg hcount
  rw [hn] at hloop
  unfold handleBulkVoucherCreate
  simp only [hloop]
  refine ⟨?_, ?_, ?_, ?_⟩
  · trivial
  · trivial
  · split <;> split <;> rfl
  · by_cases hs : 0 < successesFrom transport 0 count.toNat
    · have hs' : (0 : Int) < (successesFrom transport 0 count.toNat : Nat) := by omega
      by_cases he : (successesFrom transport 0 count.toNat : Int) < count
      · have he' : (0 : Int) < count - (successesFrom transport 0 count.toNat : Nat) := by omega
        simp [hs, hs', he, he']
      · have he' : ¬ (0 : Int) < count - (successesFrom transport 0 count.toNat : Nat) := by
          omega
        simp [hs, hs', he, he']
    · have hs' : ¬ (0 : Int) < (successesFrom transport 0 count.toNat : Nat) := by omega
      by_cases he : (successesFrom transport 0 count.toNat : Int) < count
      · have he' : (0 : Int) < count - (successesFrom transport 0 count.toNat : Nat) := by omega
        simp [hs, hs', he, he']
      · have he' : ¬ (0 : Int) < count - (successesFrom transport 0 count.toNat : Nat) := by
          omega
        simp [hs, hs', he, he']

/-- C9: for a positive `count` and any pattern of per-call outcomes,
`handleBulkVoucherCreate` issues exactly `count` create calls, one per index
in order and whatever the earlier outcomes were, ends with
`successCount + errorCount = count` where `successCount` is the number of
calls that succeeded, and issues the list reload if and only if
`successCount > 0`. -/
theorem handleBulkVoucherCreate_spec (w : World) (amount : ℚ) (count : Int)
    (transport : Nat → Except String Unit) (hcount : 0 < count) :
    (((issuedSince w.trace.length
        (handleBulkVoucherCreate w amount count transport).world).countP
          (isCreateCall amount) : Nat) : Int) = count ∧
    (issuedSince w.trace.length
        (handleBulkVoucherCreate w amount count transport).world).take
          (bulkSegment amount transport 0 count.toNat).length =
      bulkSegment amount transport 0 count.toNat ∧
    (handleBulkVoucherCreate w amount count transport).successCount +
      (handleBulkVoucherCreate w amount count transport).errorCount = count ∧
    (handleBulkVoucherCreate w amount count transport).successCount =
      (((List.range count.toNat).countP (fun i => succeeded (transport i)) : Nat) : Int) ∧
    ((∃ e ∈ issuedSince w.trace.length (handleBulkVoucherCreate w amount count transport).world,
        isReloadOf w.app.currentTab e = true) ↔
      0 < (handleBulkVoucherCreate w amount count transport).successCount) := by
  obtain ⟨hs, he, -, ht⟩ := handleBulkVoucherCreate_eq w amount count transport hcount.le
  have hissued : issuedSince w.trace.length
      (handleBulkVoucherCreate w amount count transport).world =
      bulkSegment amount transport 0 count.toNat ++
        ((if 0 < successesFrom transport 0 count.toNat then
            [Effect.showSuccess (.bulkCreated (successesFrom transport 0 count.toNat : Nat) amount),
              Effect.apiCall (endpointFor w.app.currentTab) "GET" .empty]
          else []) ++
        (if (successesFrom transport 0 count.toNat : Int) < count then
            [Effect.showError
              (.bulkFailed (count - (successesFrom transport 0 count.toNat : Nat)))]
          else [])) := by
    unfold issuedSince
    rw [ht, List.drop_left]
  refine ⟨?_, ?_, ?_, ?_, ?_⟩
  · rw [hissued, List.countP_append, countP_isCreateCall_bulkSegment, List.countP_append]
    have h1 : ∀ l : List Effect, (∀ e ∈ l, isCreateCall amount e = false) →
        l.countP (isCreateCall amount) = 0 := by
      intro l hl
      rw [List.countP_eq_zero]
      intro e hmem
      simp [hl e hmem]
    rw [h1, h1]
    · simp only [add_zero]
      exact Int.toNat_of_nonneg hcount.le
    · intro e hmem
      split at hmem
      · rw [List.mem_singleton] at hmem
        subst hmem
        simp [isCreateCall]
      · cases hmem
    · intro e hmem
      split at hmem
      · simp only [List.mem_cons, List.mem_singleton, List.not_mem_nil, or_false] at hmem
        rcases hmem with rfl | rfl <;> simp [isCreateCall]
      · cases hmem
  · rw [hissued, List.take_left]
  · rw [hs, he]
    omega
  · rw [hs, successesFrom_eq_countP, List.range_eq_range']
  · rw [hissued, hs]
    constructor
    · rintro ⟨e, hmem, hre⟩
      rw [List.mem_append] at hmem
      rcases hmem with hmem | hmem
      · rw [not_isReloadOf_bulkSegment _ _ _ _ _ e hmem] at hre
        cases hre
      · by_contra hzero
        have hz : ¬ 0 < successesFrom transport 0 count.toNat := by omega
        rw [if_neg hz, List.nil_append] at hmem
        split at hmem
        · rw [List.mem_singleton] at hmem
          subst hmem
          simp [isReloadOf] at hre
        · cases hmem
    · intro hpos
      have hp : 0 < successesFrom transport 0 count.toNat := by omega
      refine ⟨.apiCall (endpointFor w.app.currentTab) "GET" .empty, ?_, by simp [isReloadOf]⟩
      rw [if_pos hp]
      simp

theorem handleBulkVoucherCreate_spec_witness :
    (handleBulkVoucherCreate (sampleWorld "active" 1 0) 100 5 sampleTransport).successCount = 3 ∧
    (handleBulkVoucherCreate (sampleWorld "active" 1 0) 100 5 sampleTransport).errorCount = 2 ∧
    ∃ e ∈ issuedSince 0 (handleBulkVoucherCreate (sampleWorld "active" 1 0) 100 5
        sampleTransport).world, isReloadOf "active" e = true := by
  obtain ⟨-, -, hsum, hs, hreload⟩ :=
    handleBulkVoucherCreate_spec (sampleWorld "active" 1 0) 100 5 sampleTransport (by decide)
  have h3 : (handleBulkVoucherCreate (sampleWorld "active" 1 0) 100 5
      sampleTransport).successCount = 3 := by
    rw [hs]
    decide
  refine ⟨h3, ?_, ?_⟩
  · rw [h3] at hsum
    omega
  · exact hreload.mpr (by rw [h3]; decide)

/-! ## Copy and mark sold -/

/-- C10: if the clipboard write fails, `copyAndMarkSold` makes no backend call
at all (no mark-sold request, no list reload) and only reports the failure;
if it succeeds, the mark-sold request is issued exactly once, right after the
clipboard write, and the list reload is issued if and only if that request
succeeds. -/
theorem copyAndMarkSold_spec (w : World) (id : Nat) (code : String)
    (clipboard markSold : Except String Unit) :
    (copyAndMarkSold w id code clipboard markSold).app = w.app ∧
    (succeeded clipboard = false →
      (∀ e ∈ issuedSince w.trace.length (copyAndMarkSold w id code clipboard markSold),
        e.isApiCall = false) ∧
      ∃ message, issuedSince w.trace.length (copyAndMarkSold w id code clipboard markSold) =
        [.clipboardWrite code, .consoleError message,
          .showError (.copyAndMarkSoldFailed message)]) ∧
    (succeeded clipboard = true →
      (issuedSince w.trace.length (copyAndMarkSold w id code clipboard markSold)).take 2 =
        [.clipboardWrite code, .apiCall (some (markSoldEndpoint id)) "POST" .empty] ∧
      (issuedSince w.trace.length (copyAndMarkSold w id code clipboard markSold)).countP
        (isMarkSoldCall id) = 1 ∧
      ((∃ e ∈ issuedSince w.trace.length (copyAndMarkSold w id code clipboard markSold),
          isReloadOf w.app.currentTab e = true) ↔ succeeded markSold = true)) := by
  cases clipboard with
  | error message =>
    refine ⟨rfl, fun _ => ⟨?_, message, ?_⟩, fun h => ?_⟩
    · simp [copyAndMarkSold, issuedSince, Effect.isApiCall]
    · simp [copyAndMarkSold, issuedSince]
    · simp [succeeded] at h
  | ok u =>
    cases markSold with
    | error message =>
      refine ⟨rfl, fun h => ?_, fun _ => ⟨?_, ?_, ?_⟩⟩
      · simp [succeeded] at h
      · simp [copyAndMarkSold, issuedSince]
      · simp [copyAndMarkSold, issuedSince, isMarkSoldCall]
      · simp [copyAndMarkSold, issuedSince, isReloadOf, succeeded]
    | ok u' =>
      refine ⟨rfl, fun h => ?_, fun _ => ⟨?_, ?_, ?_⟩⟩
      · simp [succeeded] at h
      · simp [copyAndMarkSold, issuedSince]
      · simp [copyAndMarkSold, issuedSince, isMarkSoldCall]
      · simp [copyAndMarkSold, issuedSince, isReloadOf, succeeded]

theorem copyAndMarkSold_spec_witness :
    (∀ e ∈ issuedSince 0
        (copyAndMarkSold (sampleWorld "active" 1 7) 4 "V4" (.error "denied") (.ok ())),
      e.isApiCall = false) ∧
    ((∃ e ∈ issuedSince 0
        (copyAndMarkSold (sampleWorld "active" 1 7) 4 "V4" (.ok ()) (.ok ())),
      isReloadOf "active" e = true) ↔ succeeded (.ok ()) = true) :=
  ⟨((copyAndMarkSold_spec (sampleWorld "active" 1 7) 4 "V4" (.error "denied") (.ok ())).2.1
      rfl).1,
    ((copyAndMarkSold_spec (sampleWorld "active" 1 7) 4 "V4" (.ok ()) (.ok ())).2.2
      rfl).2.2⟩

/-! ## Balance check -/

theorem findByCode_eq_none (voucherCode : String) (list : List Voucher)
    (h : ∀ v ∈ list, v.code ≠ voucherCode) : findByCode voucherCode list = none := by
  unfold findByCode
  rw [List.find?_eq_none]
  intro v hv
  simp [h v hv]

theorem findByCode_of_mem (voucherCode : String) (list : List Voucher)
    (h : ∃ v ∈ list, v.code = voucherCode) :
    ∃ v, findByCode voucherCode list = some v ∧ v ∈ list ∧ v.code = voucherCode := by
  unfold findByCode
  cases hf : list.find? (fun v => decide (v.code = voucherCode)) with
  | none =>
    rw [List.find?_eq_none] at hf
    obtain ⟨v, hv, hcode⟩ := h
    exact absurd (by simpa using hcode) (hf v hv)
  | some v =>
    refine ⟨v, rfl, List.mem_of_find?_eq_some hf, ?_⟩
    simpa using List.find?_some hf

/-- C11, as stated, fails: for the code `V2`, absent from the Active list,
present in the Disabled list and absent from the Sold list, the result is
tagged `(DISABLED)` but the Sold endpoint is queried all the same. -/
theorem handleCheckBalance_queries_sold :
    findByCode "V2" [sampleVoucher 1] = none ∧
    findByCode "V2" [sampleVoucher 2] = some (sampleVoucher 2) ∧
    findByCode "V2" [] = none ∧
    (handleCheckBalance (sampleWorld "active" 1 0) true "V2" (.ok (.raw [sampleVoucher 1]))
      (.ok (.raw [sampleVoucher 2])) (.ok (.raw []))).balanceResult =
        some { value := .disabled 100, color := "var(--danger-color)" } ∧
    Effect.apiCall (some "/vouchers/sold/") "GET" .empty ∈
      (handleCheckBalance (sampleWorld "active" 1 0) true "V2" (.ok (.raw [sampleVoucher 1]))
        (.ok (.raw [sampleVoucher 2])) (.ok (.raw []))).world.trace := by
  refine ⟨by decide, by decide, by decide, by rfl, ?_⟩
  have h : (handleCheckBalance (sampleWorld "active" 1 0) true "V2"
      (.ok (.raw [sampleVoucher 1])) (.ok (.raw [sampleVoucher 2])) (.ok (.raw []))).world.trace =
      [.apiCall (some "/vouchers/") "GET" .empty,
        .apiCall (some "/vouchers/disabled/") "GET" .empty,
        .apiCall (some "/vouchers/sold/") "GET" .empty,
        .showError (.voucherDisabled "V2" 100)] := by rfl
  rw [h]
  simp

/-- C11, amended: for a code absent from the Active list and present in the
Disabled list, the three list calls succeeding with arrays,
`handleCheckBalance` queries the Active, the Disabled and then the Sold
endpoint, all three and in that order, and reports the balance of the
disabled voucher tagged `(DISABLED)`. -/
theorem handleCheckBalance_disabled (w : World) (hasField : Bool) (voucherCode : String)
    (activeList disabledList soldList : List Voucher)
    (hactive : ∀ v ∈ activeList, v.code ≠ voucherCode)
    (hdisabled : ∃ v ∈ disabledList, v.code = voucherCode) :
    ∃ v ∈ disabledList, v.code = voucherCode ∧
      (handleCheckBalance w hasField voucherCode (.ok (.raw activeList))
        (.ok (.raw disabledList)) (.ok (.raw soldList))).world.trace =
        w.trace ++ [.apiCall (some "/vouchers/") "GET" .empty,
          .apiCall (some "/vouchers/disabled/") "GET" .empty,
          .apiCall (some "/vouchers/sold/") "GET" .empty,
          .showError (.voucherDisabled voucherCode v.current_balance)] ∧
      (handleCheckBalance w hasField voucherCode (.ok (.raw activeList))
        (.ok (.raw disabledList)) (.ok (.raw soldList))).balanceResult =
        (if hasField then
          some { value := .disabled v.current_balance, color := "var(--danger-color)" }
        else none) := by
  have ha := findByCode_eq_none voucherCode activeList hactive
  obtain ⟨v, hv, hmem, hcode⟩ := findByCode_of_mem voucherCode disabledList hdisabled
  refine ⟨v, hmem, hcode, ?_, ?_⟩
  · simp [handleCheckBalance, findActive, findInList, ha, hv]
  · simp [handleCheckBalance, findActive, findInList, ha, hv]

theorem handleCheckBalance_disabled_witness :
    ∃ v ∈ [sampleVoucher 2], v.code = "V2" ∧
      (handleCheckBalance (sampleWorld "active" 1 0) true "V2" (.ok (.raw [sampleVoucher 1]))
        (.ok (.raw [sampleVoucher 2])) (.ok (.raw [sampleVoucher 3]))).world.trace =
        (sampleWorld "active" 1 0).trace ++ [.apiCall (some "/vouchers/") "GET" .empty,
          .apiCall (some "/vouchers/disabled/") "GET" .empty,
          .apiCall (some "/vouchers/sold/") "GET" .empty,
          .showError (.voucherDisabled "V2" v.current_balance)] ∧
      (handleCheckBalance (sampleWorld "active" 1 0) true "V2" (.ok (.raw [sampleVoucher 1]))
        (.ok (.raw [sampleVoucher 2])) (.ok (.raw [sampleVoucher 3]))).balanceResult =
        (if true = true then
          some { value := .disabled v.current_balance, color := "var(--danger-color)" }
        else none) :=
  handleCheckBalance_disabled (sampleWorld "active" 1 0) true "V2" [sampleVoucher 1]
    [sampleVoucher 2] [sampleVoucher 3] (by decide) ⟨sampleVoucher 2, by decide, by decide⟩

/-! ## Transport failures -/

theorem http_status_ne_empty (status : Nat) : "HTTP " ++ toString status ≠ "" := by
  intro h
  have hl := congrArg String.length h
  rw [String.length_append] at hl
  have h5 : "HTTP ".length = 5 := by decide
  have h0 : "".length = 0 := by decide
  omega

theorem jsOr_of_truthy (a : Option Json) (b value : Json) (h : a = some value)
    (ht : value.truthy = true) : jsOr a b = value := by
  unfold jsOr
  rw [h]
  simp [ht]

theorem jsOr_of_lacks (body : Json) (key : String) (b : Json) (h : body.lacks key = true) :
    jsOr (body.get key) b = b := by
  unfold Json.lacks at h
  unfold jsOr
  cases hg : body.get key with
  | none => rfl
  | some value =>
    rw [hg] at h
    simp only [Bool.not_eq_eq_eq_not, Bool.not_true] at h
    simp [h]

theorem lacks_or_truthy (body : Json) (key : String) :
    body.lacks key = true ∨ ∃ value, body.get key = some value ∧ value.truthy = true := by
  unfold Json.lacks
  cases hg : body.get key with
  | none => exact Or.inl rfl
  | some value =>
    cases ht : value.truthy with
    | true => exact Or.inr ⟨value, rfl, ht⟩
    | false => exact Or.inl (by simp [ht])

theorem thrownMessage_str (numberToString : JsNumber → String) (s : String) :
    thrownMessage numberToString (.str s) = s := rfl

theorem truthy_str (s : String) : (Json.str s).truthy = true ↔ s ≠ "" := by
  simp [Json.truthy]

/-- C12, as stated, fails: for a non-success response whose body parses as
JSON with none of `detail`, `message`, `error`, the message is neither one of
those fields nor the status text, it is `HTTP 500`; and for the body
`{"detail": []}` the array is truthy and converts to the empty string, so
the failure message is empty. -/
theorem apiCall_error_without_fields :
    apiCall sampleNumberToString
      ({ ok := false, status := 500, statusText := "Internal Server Error",
         errorBody := some (.obj []),
         jsonContentType := true, payload := none } : HttpResponse Unit) =
      .error "HTTP 500" ∧
    "HTTP 500" ≠ "Internal Server Error" ∧
    apiCall sampleNumberToString
      ({ ok := false, status := 400, statusText := "Bad Request",
         errorBody := some (.obj [("detail", .arr [])]),
         jsonContentType := true, payload := none } : HttpResponse Unit) =
      .error "" := by
  refine ⟨rfl, by decide, rfl⟩

/-- C12, amended: for every non-success response `apiCall` fails with one
message.  When the body parses as JSON to a value other than `null`, it is
the string conversion of the first truthy of `detail`, `message`, `error` in
that order (for a string field: the first non-empty one, itself), and
`HTTP <status>` when none of them is truthy.  When the body does not parse, or
is `null`, it is the status text, and `HTTP <status>` when that is empty.  The
message is not empty as long as every truthy one of the three fields is a
string. -/
theorem apiCall_error_message {α : Type} (numberToString : JsNumber → String)
    (response : HttpResponse α) (hfail : response.ok = false) :
    ∃ msg, apiCall numberToString response = .error msg ∧
      (∀ body, response.errorBody = some body → body.isNull = false →
        (∀ value, body.get "detail" = some value → value.truthy = true →
          msg = thrownMessage numberToString value) ∧
        (∀ value, body.lacks "detail" = true → body.get "message" = some value →
          value.truthy = true → msg = thrownMessage numberToString value) ∧
        (∀ value, body.lacks "detail" = true → body.lacks "message" = true →
          body.get "error" = some value → value.truthy = true →
          msg = thrownMessage numberToString value) ∧
        (∀ s, body.get "detail" = some (.str s) → s ≠ "" → msg = s) ∧
        (∀ s, body.lacks "detail" = true → body.get "message" = some (.str s) → s ≠ "" →
          msg = s) ∧
        (∀ s, body.lacks "detail" = true → body.lacks "message" = true →
          body.get "error" = some (.str s) → s ≠ "" → msg = s) ∧
        (body.lacks "detail" = true → body.lacks "message" = true →
          body.lacks "error" = true → msg = "HTTP " ++ toString response.status)) ∧
      ((response.errorBody = none ∨ ∃ body, response.errorBody = some body ∧
          body.isNull = true) →
        (response.statusText ≠ "" → msg = response.statusText) ∧
        (response.statusText = "" → msg = "HTTP " ++ toString response.status)) ∧
      ((∀ body, response.errorBody = some body →
          ∀ key, key = "detail" ∨ key = "message" ∨ key = "error" →
          ∀ value, body.get key = some value → value.truthy = true → ∃ s, value = .str s) →
        msg ≠ "") := by
  refine ⟨apiErrorMessage numberToString response.status response.statusText
    response.errorBody, ?_, ?_, ?_, ?_⟩
  · simp [apiCall, hfail]
  · intro body hbody hnull
    have hmsg : apiErrorMessage numberToString response.status response.statusText
        response.errorBody =
        thrownMessage numberToString
          (chosenMessage ("HTTP " ++ toString response.status) body) := by
      simp [apiErrorMessage, hbody, hnull]
    rw [hmsg]
    have general :
        (∀ value, body.get "detail" = some value → value.truthy = true →
          chosenMessage ("HTTP " ++ toString response.status) body = value) ∧
        (∀ value, body.lacks "detail" = true → body.get "message" = some value →
          value.truthy = true →
          chosenMessage ("HTTP " ++ toString response.status) body = value) ∧
        (∀ value, body.lacks "detail" = true → body.lacks "message" = true →
          body.get "error" = some value → value.truthy = true →
          chosenMessage ("HTTP " ++ toString response.status) body = value) := by
      refine ⟨?_, ?_, ?_⟩
      · intro value hv ht
        unfold chosenMessage
        rw [jsOr_of_truthy _ _ value hv ht]
      · intro value hd hv ht
        unfold chosenMessage
        rw [jsOr_of_lacks body _ _ hd, jsOr_of_truthy _ _ value hv ht]
      · intro value hd hm hv ht
        unfold chosenMessage
        rw [jsOr_of_lacks body _ _ hd, jsOr_of_lacks body _ _ hm,
          jsOr_of_truthy _ _ value hv ht]
    refine ⟨?_, ?_, ?_, ?_, ?_, ?_, ?_⟩
    · intro value hv ht
      rw [general.1 value hv ht]
    · intro value hd hv ht
      rw [general.2.1 value hd hv ht]
    · intro value hd hm hv ht
      rw [general.2.2 value hd hm hv ht]
    · intro s hv hne
      rw [general.1 _ hv ((truthy_str s).mpr hne)]
      rfl
    · intro s hd hv hne
      rw [general.2.1 _ hd hv ((truthy_str s).mpr hne)]
      rfl
    · intro s hd hm hv hne
      rw [general.2.2 _ hd hm hv ((truthy_str s).mpr hne)]
      rfl
    · intro hd hm he
      unfold chosenMessage
      rw [jsOr_of_lacks body _ _ hd, jsOr_of_lacks body _ _ hm, jsOr_of_lacks body _ _ he]
      rfl
  · intro hcaught
    have hmsg : apiErrorMessage numberToString response.status response.statusText
        response.errorBody =
        if response.statusText = "" then "HTTP " ++ toString response.status
        else response.statusText := by
      rcases hcaught with hnone | ⟨body, hbody, hnull⟩
      · simp [apiErrorMessage, hnone]
      · simp [apiErrorMessage, hbody, hnull]
    rw [hmsg]
    refine ⟨?_, ?_⟩
    · intro hne
      rw [if_neg hne]
    · intro he
      rw [if_pos he]
  · intro hstrings
    have hcaught : (if response.statusText = "" then "HTTP " ++ toString response.status
        else response.statusText) ≠ "" := by
      split
      · exact http_status_ne_empty _
      · assumption
    unfold apiErrorMessage
    cases hbody : response.errorBody with
    | none => exact hcaught
    | some body =>
      simp only []
      split
      · exact hcaught
      · -- the chosen value is a non-empty string
        have hfield : ∀ key, key = "detail" ∨ key = "message" ∨ key = "error" →
            ∀ value, body.get key = some value → value.truthy = true →
            thrownMessage numberToString value ≠ "" := by
          intro key hkey value hv ht
          obtain ⟨s, rfl⟩ := hstrings body hbody key hkey value hv ht
          rw [thrownMessage_str]
          exact (truthy_str s).mp ht
        unfold chosenMessage
        rcases lacks_or_truthy body "detail" with hd | ⟨value, hv, ht⟩
        · rw [jsOr_of_lacks body _ _ hd]
          rcases lacks_or_truthy body "message" with hm | ⟨value, hv, ht⟩
          · rw [jsOr_of_lacks body _ _ hm]
            rcases lacks_or_truthy body "error" with he | ⟨value, hv, ht⟩
            · rw [jsOr_of_lacks body _ _ he, thrownMessage_str]
              exact http_status_ne_empty _
            · rw [jsOr_of_truthy _ _ value hv ht]
              exact hfield "error" (Or.inr (Or.inr rfl)) value hv ht
          · rw [jsOr_of_truthy _ _ value hv ht]
            exact hfield "message" (Or.inr (Or.inl rfl)) value hv ht
        · rw [jsOr_of_truthy _ _ value hv ht]
          exact hfield "detail" (Or.inl rfl) value hv ht

theorem apiCall_error_message_witness :
    apiCall sampleNumberToString
      ({ ok := false, status := 404, statusText := "Not Found",
         errorBody := some (.obj [("detail", .str ""), ("message", .str "No such voucher"),
           ("error", .str "ignored")]),
         jsonContentType := true, payload := none } : HttpResponse Unit) =
      .error "No such voucher" ∧
    apiCall sampleNumberToString
      ({ ok := false, status := 502, statusText := "",
         errorBody := none, jsonContentType := false, payload := none } :
        HttpResponse Unit) = .error "HTTP 502" ∧
    apiCall sampleNumberToString
      ({ ok := false, status := 404, statusText := "Not Found",
         errorBody := some (.obj [("detail", .num 0), ("message", .num 404)]),
         jsonContentType := true, payload := none } : HttpResponse Unit) =
      .error "404" := by
  obtain ⟨m1, h1, hbody, -, -⟩ := apiCall_error_message sampleNumberToString
    ({ ok := false, status := 404, statusText := "Not Found",
       errorBody := some (.obj [("detail", .str ""), ("message", .str "No such voucher"),
         ("error", .str "ignored")]),
       jsonContentType := true, payload := none } : HttpResponse Unit) rfl
  obtain ⟨m2, h2, -, htext, -⟩ := apiCall_error_message sampleNumberToString
    ({ ok := false, status := 502, statusText := "",
       errorBody := none, jsonContentType := false, payload := none } : HttpResponse Unit) rfl
  obtain ⟨m3, h3, hnum, -, -⟩ := apiCall_error_message sampleNumberToString
    ({ ok := false, status := 404, statusText := "Not Found",
       errorBody := some (.obj [("detail", .num 0), ("message", .num 404)]),
       jsonContentType := true, payload := none } : HttpResponse Unit) rfl
  have e1 := (hbody _ rfl rfl).2.2.2.2.1 "No such voucher" rfl rfl (by decide)
  have e2 := (htext (Or.inl rfl)).2 rfl
  have h404 : toDouble 404 = .finite 404 := by
    have := roundDouble_intCast 404 (by decide)
    simpa [toDouble] using this
  have e3 := (hnum _ rfl rfl).2.1 (.num 404)
    (by simp [Json.lacks, Json.get, lastMember, Json.truthy, toDouble, roundDouble_zero])
    (by simp [Json.get, lastMember])
    (by simp [Json.truthy, h404])
  rw [h1, h2, h3, e1, e2, e3]
  refine ⟨rfl, rfl, ?_⟩
  simp only [thrownMessage, Json.toJsString, h404]
  rfl

/-! ## Dropdown menus -/

theorem closeOtherDropdowns_ids (target : String) (menus : List DropdownMenu) :
    (closeOtherDropdowns target menus).map (fun m => m.id) = menus.map (fun m => m.id) := by
  unfold closeOtherDropdowns
  rw [List.map_map]
  apply List.map_congr_left
  intro m _
  simp only [Function.comp]
  split <;> rfl

theorem toggleTarget_ids (target : String) (menus : List DropdownMenu) :
    (toggleTarget target menus).map (fun m => m.id) = menus.map (fun m => m.id) := by
  induction menus with
  | nil => rfl
  | cons m rest ih =>
    unfold toggleTarget
    split
    · rfl
    · simp only [List.map_cons, ih]

/-- With distinct ids the element found by id is the only one with that id,
so the toggle acts on every menu by its id alone. -/
theorem toggleTarget_eq_map (target : String) (menus : List DropdownMenu)
    (hnodup : (menus.map (fun m => m.id)).Nodup) :
    toggleTarget target menus = menus.map (fun m =>
      if m.id = target then
        { m with display := if m.display = "none" then "block" else "none" }
      else m) := by
  induction menus with
  | nil => rfl
  | cons m rest ih =>
    rw [List.map_cons, List.nodup_cons] at hnodup
    unfold toggleTarget
    split
    · next heq =>
      rw [List.map_cons, if_pos heq]
      congr 1
      symm
      calc rest.map _ = rest.map id := by
            apply List.map_congr_left
            intro x hx
            have hne : x.id ≠ target := by
              intro hxt
              apply hnodup.1
              rw [heq, ← hxt]
              exact List.mem_map_of_mem _ hx
            simp [hne]
        _ = rest := List.map_id _
    · next hne =>
      rw [List.map_cons, if_neg hne, ih hnodup.2]

theorem toggleDropdown_eq_map (menus : List DropdownMenu) (id : Nat)
    (hnodup : (menus.map (fun m => m.id)).Nodup) :
    toggleDropdown menus id = menus.map (fun m =>
      if m.id = dropdownId id then
        { m with display := if m.display = "none" then "block" else "none" }
      else { m with display := "none" }) := by
  unfold toggleDropdown
  rw [toggleTarget_eq_map _ _ (by rw [closeOtherDropdowns_ids]; exact hnodup)]
  unfold closeOtherDropdowns
  rw [List.map_map]
  apply List.map_congr_left
  intro m _
  simp only [Function.comp]
  by_cases h : m.id = dropdownId id
  · simp [h]
  · simp [h]

theorem toggleDropdown_ids (menus : List DropdownMenu) (id : Nat) :
    (toggleDropdown menus id).map (fun m => m.id) = menus.map (fun m => m.id) := by
  unfold toggleDropdown
  rw [toggleTarget_ids, closeOtherDropdowns_ids]

theorem documentClick_ids (menus : List DropdownMenu) (inside : Bool) :
    (documentClick menus inside).map (fun m => m.id) = menus.map (fun m => m.id) := by
  unfold documentClick
  split
  · rfl
  · rw [List.map_map]
    rfl

/-- Among menus with distinct ids, if only those with one given id can be
open then at most one is. -/
theorem openCount_le_one (target : String) (menus : List DropdownMenu)
    (hnodup : (menus.map (fun m => m.id)).Nodup)
    (hclosed : ∀ m ∈ menus, m.id ≠ target → m.display = "none") :
    openCount menus ≤ 1 := by
  induction menus with
  | nil => simp [openCount]
  | cons m rest ih =>
    rw [List.map_cons, List.nodup_cons] at hnodup
    unfold openCount
    rw [List.countP_cons]
    by_cases hm : m.id = target
    · have hrest : rest.countP (fun menu => decide (menu.display ≠ "none")) = 0 := by
        rw [List.countP_eq_zero]
        intro x hx
        have hne : x.id ≠ target := by
          intro hxt
          apply hnodup.1
          rw [hm, ← hxt]
          exact List.mem_map_of_mem _ hx
        simp [hclosed x (List.mem_cons_of_mem _ hx) hne]
      rw [hrest]
      split <;> omega
    · have hmc : m.display = "none" := hclosed m (List.mem_cons_self _ _) hm
      have := ih hnodup.2 (fun x hx => hclosed x (List.mem_cons_of_mem _ hx))
      unfold openCount at this
      rw [show decide (m.display ≠ "none") = false by simp [hmc]]
      simp only [Bool.false_eq_true, if_false]
      omega

theorem openCount_toggleDropdown (menus : List DropdownMenu) (id : Nat)
    (hnodup : (menus.map (fun m => m.id)).Nodup) :
    openCount (toggleDropdown menus id) ≤ 1 := by
  apply openCount_le_one (dropdownId id)
  · rw [toggleDropdown_ids]
    exact hnodup
  · intro m hm hne
    rw [toggleDropdown_eq_map menus id hnodup, List.mem_map] at hm
    obtain ⟨m0, _, rfl⟩ := hm
    by_cases h : m0.id = dropdownId id
    · simp [h] at hne
    · simp [h]

theorem openCount_documentClick (menus : List DropdownMenu) (inside : Bool) :
    openCount (documentClick menus inside) ≤ openCount menus := by
  unfold documentClick
  split
  · exact le_refl _
  · have h : openCount (menus.map (fun menu => { menu with display := "none" })) = 0 := by
      unfold openCount
      rw [List.countP_eq_zero]
      intro x hx
      rw [List.mem_map] at hx
      obtain ⟨m0, _, rfl⟩ := hx
      simp
    omega

/-- C13: for dropdown menus with distinct ids, each displayed `none` or
`block`, `toggleDropdown(id)` keeps the menus and their ids, closes every menu
other than the target and flips the target between `none` and `block`; hence
in every state reachable from an all-closed start by `toggleDropdown` calls
and document clicks, at most one menu is open. -/
theorem toggleDropdown_spec (menus : List DropdownMenu) (id : Nat)
    (hnodup : (menus.map (fun m => m.id)).Nodup)
    (hdisplay : ∀ m ∈ menus, m.display = "none" ∨ m.display = "block") :
    (toggleDropdown menus id).map (fun m => m.id) = menus.map (fun m => m.id) ∧
    (∀ (i : Nat) (m m' : DropdownMenu), menus[i]? = some m →
      (toggleDropdown menus id)[i]? = some m' →
      m'.id = m.id ∧
      (m.id ≠ dropdownId id → m'.display = "none") ∧
      (m.id = dropdownId id →
        (m'.display = "block" ↔ m.display = "none") ∧
        (m'.display = "none" ↔ m.display = "block"))) ∧
    openCount (toggleDropdown menus id) ≤ 1 ∧
    ∀ state, (∀ m ∈ menus, m.display = "none") → DropdownReachable menus state →
      state.map (fun m => m.id) = menus.map (fun m => m.id) ∧ openCount state ≤ 1 := by
  refine ⟨toggleDropdown_ids menus id, ?_, openCount_toggleDropdown menus id hnodup, ?_⟩
  · intro i m m' hm hm'
    rw [toggleDropdown_eq_map menus id hnodup, List.getElem?_map, hm] at hm'
    simp only [Option.map_some', Option.some.injEq] at hm'
    subst hm'
    have hm_mem : m ∈ menus := List.getElem?_mem hm
    refine ⟨?_, ?_, ?_⟩
    · split <;> rfl
    · intro hne
      simp [hne]
    · intro heq
      rcases hdisplay m hm_mem with hnone | hblock
      · simp [heq, hnone]
      · simp [heq, hblock]
  · intro state hclosed hreach
    induction hreach with
    | start =>
      refine ⟨rfl, ?_⟩
      have h : openCount menus = 0 := by
        unfold openCount
        rw [List.countP_eq_zero]
        intro x hx
        simp [hclosed x hx]
      omega
    | toggle s k _ ih =>
      refine ⟨by rw [toggleDropdown_ids, ih.1], ?_⟩
      exact openCount_toggleDropdown s k (by rw [ih.1]; exact hnodup)
    | click s inside _ ih =>
      refine ⟨by rw [documentClick_ids, ih.1], ?_⟩
      exact le_trans (openCount_documentClick s inside) ih.2

theorem toggleDropdown_spec_witness :
    openCount (toggleDropdown (toggleDropdown sampleMenus 1) 2) ≤ 1 ∧
    toggleDropdown (toggleDropdown sampleMenus 1) 2 =
      [{ id := "dropdown-1", display := "none" }, { id := "dropdown-2", display := "block" },
        { id := "dropdown-3", display := "none" }] := by
  have h := toggleDropdown_spec sampleMenus 1 (by decide) (by decide)
  have hr := h.2.2.2 (toggleDropdown (toggleDropdown sampleMenus 1) 2) (by decide)
    (.toggle _ 2 (.toggle _ 1 .start))
  exact ⟨hr.2, by decide⟩

/-! ## Overlapping reloads -/

/-- C14, as stated, fails: a reload is issued on the Active tab, then
`switchTab('sold')` issues a second one; the response of the second request
(two vouchers) arrives first and the response of the first request (one
voucher) arrives afterwards.  The late response of the earlier request is not
discarded: it replaces the rows and the cached count. -/
theorem stale_response_overwrites :
    (switchTab (loadVouchersStart (sampleWorld "active" 1 0)) "sold").trace =
      [.apiCall (some "/vouchers/") "GET" .empty,
        .apiCall (some "/vouchers/sold/") "GET" .empty] ∧
    displayedRows (loadVouchersResume
        (switchTab (loadVouchersStart (sampleWorld "active" 1 0)) "sold")
        (.ok (.raw [sampleVoucher 1, sampleVoucher 2])) (.error "offline")) =
      [voucherRow "sold" (sampleVoucher 1), voucherRow "sold" (sampleVoucher 2)] ∧
    displayedRows (loadVouchersResume (loadVouchersResume
        (switchTab (loadVouchersStart (sampleWorld "active" 1 0)) "sold")
        (.ok (.raw [sampleVoucher 1, sampleVoucher 2])) (.error "offline"))
        (.ok (.raw [sampleVoucher 3])) (.error "offline")) =
      [voucherRow "sold" (sampleVoucher 3)] ∧
    (loadVouchersResume (loadVouchersResume
        (switchTab (loadVouchersStart (sampleWorld "active" 1 0)) "sold")
        (.ok (.raw [sampleVoucher 1, sampleVoucher 2])) (.error "offline"))
        (.ok (.raw [sampleVoucher 3])) (.error "offline")).app.totalItems = 1 := by
  refine ⟨rfl, rfl, rfl, rfl⟩

/-- C14, amended: after two reloads issued in succession, the second by
`switchTab(t)`, every response updates the rows and the cached count when it
arrives, whichever request it answers, and after both have arrived the rows
(page 1, rendered for tab `t`) and the count are those of the response that
arrived last; no response is discarded. -/
theorem last_response_wins (w : World) (t : String) (first second : ListResponse)
    (stats stats' : Except String Statistics)
    (hsize : w.app.itemsPerPage = 5) (hdom : w.dom.vouchersContainer ≠ none) :
    (switchTab (loadVouchersStart w) t).trace =
      w.trace ++ [.apiCall (endpointFor w.app.currentTab) "GET" .empty,
        .apiCall (endpointFor t) "GET" .empty] ∧
    displayedRows (loadVouchersResume (switchTab (loadVouchersStart w) t) (.ok first) stats) =
      (first.vouchers.take 5).map (voucherRow t) ∧
    (loadVouchersResume (switchTab (loadVouchersStart w) t) (.ok first) stats).app.totalItems =
      first.totalItems ∧
    displayedRows (loadVouchersResume
        (loadVouchersResume (switchTab (loadVouchersStart w) t) (.ok first) stats)
        (.ok second) stats') =
      (second.vouchers.take 5).map (voucherRow t) ∧
    (loadVouchersResume
        (loadVouchersResume (switchTab (loadVouchersStart w) t) (.ok first) stats)
        (.ok second) stats').app.totalItems = second.totalItems := by
  have hs : ∀ xs : List Voucher, jsSlice xs 0 5 = xs.take 5 := by
    intro xs
    simpa using jsSlice_of_nonneg xs 0 5 (le_refl _) (by decide)
  obtain ⟨view, hview⟩ := Option.ne_none_iff_exists'.mp hdom
  have h1 := loadVouchersResume_ok (switchTab (loadVouchersStart w) t) first stats
  have h2 := loadVouchersResume_ok
    (loadVouchersResume (switchTab (loadVouchersStart w) t) (.ok first) stats) second stats'
  refine ⟨?_, ?_, ?_, ?_, ?_⟩
  · simp [switchTab]
  · apply displayedRows_vouchersView
    rw [h1.2.1]
    simp [switchTab, hview, hsize, hs]
  · rw [h1.1]
  · apply displayedRows_vouchersView
    rw [h2.2.1, h1.1, h1.2.1]
    simp [switchTab, hview, hsize, hs]
  · rw [h2.1]

theorem last_response_wins_witness :
    displayedRows (loadVouchersResume
        (loadVouchersResume (switchTab (loadVouchersStart (sampleWorld "active" 1 0)) "sold")
          (.ok (.raw [sampleVoucher 1, sampleVoucher 2])) (.error "offline"))
        (.ok (.raw [sampleVoucher 3])) (.error "offline")) =
      (([sampleVoucher 3] : List Voucher).take 5).map (voucherRow "sold") ∧
    displayedRows (loadVouchersResume
        (loadVouchersResume (switchTab (loadVouchersStart (sampleWorld "active" 1 0)) "sold")
          (.ok (.raw [sampleVoucher 3])) (.error "offline"))
        (.ok (.raw [sampleVoucher 1, sampleVoucher 2])) (.error "offline")) =
      (([sampleVoucher 1, sampleVoucher 2] : List Voucher).take 5).map (voucherRow "sold") :=
  ⟨(last_response_wins (sampleWorld "active" 1 0) "sold"
      (.raw [sampleVoucher 1, sampleVoucher 2]) (.raw [sampleVoucher 3])
      (.error "offline") (.error "offline") rfl
      (by simp [sampleWorld, sampleDocument])).2.2.2.1,
    (last_response_wins (sampleWorld "active" 1 0) "sold"
      (.raw [sampleVoucher 3]) (.raw [sampleVoucher 1, sampleVoucher 2])
      (.error "offline") (.error "offline") rfl
      (by simp [sampleWorld, sampleDocument])).2.2.2.1⟩

/-! ## Page windows -/

theorem pageWindow_five {α : Type} (items : List α) (p : Int) (hp : 1 ≤ p) :
    pageWindow 5 items p = (items.drop ((p - 1) * 5).toNat).take 5 := by
  unfold pageWindow
  exact jsSlice_of_nonneg items ((p - 1) * 5) 5 (by omega) (by decide)

theorem flatMap_pageWindow {α : Type} (items : List α) (n : Nat) :
    (List.range n).flatMap (fun k => pageWindow 5 items ((k : Int) + 1)) = items.take (5 * n) := by
  induction n with
  | zero => simp
  | succ m ih =>
    have hw : pageWindow 5 items ((m : Int) + 1) = (items.drop (5 * m)).take 5 := by
      rw [pageWindow_five items _ (by omega)]
      have h : (((m : Int) + 1 - 1) * 5).toNat = 5 * m := by omega
      rw [h]
    rw [List.range_succ, List.flatMap_append, ih]
    simp only [List.flatMap_cons, List.flatMap_nil, List.append_nil, hw]
    rw [show 5 * (m + 1) = 5 * m + 5 by omega, List.take_add]

/-- C15: for every item sequence of length `N` and page size 5, the page
windows `loadVouchers` computes for pages `1 .. ceil(N / 5)` are each
non-empty, each of length 5 except possibly the last, and concatenated in
page order they give back the item sequence; for every page beyond
`ceil(N / 5)` the window is empty.  The rows `loadVouchers` shows for page `p`
are those of the window of `p`. -/
theorem pageWindow_partition (items : List Voucher) :
    (∀ p : Int, 1 ≤ p → p ≤ ⌈((items.length : Int) : ℚ) / 5⌉ →
      pageWindow 5 items p ≠ [] ∧ (pageWindow 5 items p).length ≤ 5 ∧
      (p < ⌈((items.length : Int) : ℚ) / 5⌉ → (pageWindow 5 items p).length = 5)) ∧
    (List.range ⌈((items.length : Int) : ℚ) / 5⌉.toNat).flatMap
      (fun k => pageWindow 5 items ((k : Int) + 1)) = items ∧
    (∀ p : Int, ⌈((items.length : Int) : ℚ) / 5⌉ < p → pageWindow 5 items p = []) ∧
    ∀ (w : World) (stats : Except String Statistics),
      w.app.itemsPerPage = 5 → w.dom.vouchersContainer ≠ none →
      displayedRows (loadVouchers w (.ok (.raw items)) stats) =
        (pageWindow 5 items w.app.currentPage).map (voucherRow w.app.currentTab) := by
  rw [ceil_div_five]
  refine ⟨?_, ?_, ?_, ?_⟩
  · intro p hp1 hp2
    rw [pageWindow_five items p hp1]
    have hlen : ((items.drop ((p - 1) * 5).toNat).take 5).length =
        min 5 (items.length - ((p - 1) * 5).toNat) := by
      rw [List.length_take, List.length_drop]
    refine ⟨?_, ?_, ?_⟩
    · intro hnil
      rw [hnil, List.length_nil] at hlen
      omega
    · omega
    · intro hlt
      omega
  · rw [flatMap_pageWindow]
    apply List.take_of_length_le
    omega
  · intro p hp
    have hp1 : 1 ≤ p := by omega
    rw [pageWindow_five items p hp1, List.drop_of_length_le (by omega)]
    rfl
  · intro w stats hsize hdom
    apply displayedRows_vouchersView
    unfold loadVouchers
    rw [(loadVouchersResume_ok _ (.raw items) stats).2.1]
    cases hv : w.dom.vouchersContainer with
    | none => exact absurd hv hdom
    | some view => simp [hv, hsize, pageWindow, ListResponse.vouchers]

theorem pageWindow_partition_witness :
    pageWindow 5 (sampleVouchers 12) 1 ++ pageWindow 5 (sampleVouchers 12) 2 ++
      pageWindow 5 (sampleVouchers 12) 3 = sampleVouchers 12 ∧
    (pageWindow 5 (sampleVouchers 12) 3).length = 2 ∧
    pageWindow 5 (sampleVouchers 12) 4 = [] := by
  have h := pageWindow_partition (sampleVouchers 12)
  have hc : ⌈(((sampleVouchers 12).length : Int) : ℚ) / 5⌉ = 3 := by
    rw [ceil_div_five]
    decide
  rw [hc] at h
  refine ⟨?_, by decide, h.2.2.1 4 (by decide)⟩
  have hcat := h.2.1
  simpa [List.range, List.range.loop, List.flatMap] using hcat

end Koshya
